import Mathlib

/-!
Shallow embedding of the governance-swarm audit engine (src/src of the
repository): the data model (`models.py`, `state.py`), the deterministic
synthesis engine (`nodes/justice.py`), the judge-side collusion guard
(`nodes/judges.py`), the judicial integrity check (`nodes/orchestration.py`),
the graph wiring (`graph.py`), the degraded-path handler (`nodes/detectives.py`)
and the security scan protocol (`tools/repo_tools.py`).

Python floats are modelled as exact rationals; `round` is modelled as
round-half-to-even (Python's semantics on floats).  All arithmetic in the
synthesis engine operates on small integer scores divided by 2, 3 or 4, where
the rational model and the IEEE-double computation round identically.
External collaborators (git, the file system, LLM calls, `difflib`) are
modelled as parameters of the functions that consume their output.
-/

namespace GovSwarm

/-- Python `str.lower` restricted to the ASCII/Unicode simple case mapping. -/
def strLower (s : String) : String :=
  ⟨s.data.map Char.toLower⟩

/-- Check that `hay` starts with `needle` (character lists). -/
def charsStartWith : List Char → List Char → Bool
  | [], _ => true
  | _ :: _, [] => false
  | a :: as, b :: bs => a == b && charsStartWith as bs

/-- Check that `needle` occurs contiguously inside `hay` (character lists). -/
def charsOccur (needle : List Char) : List Char → Bool
  | [] => needle.isEmpty
  | c :: rest => charsStartWith needle (c :: rest) || charsOccur needle rest

/-- Python's `needle in hay` on strings. -/
def strContains (hay needle : String) : Bool :=
  charsOccur needle.data hay.data

/-- Exact fraction `num/den` with `den > 0` maintained by construction:
the model of Python float values arising in this program (all of which are
ratios of small integers computed exactly, see the header note). -/
structure Frac where
  num : ℤ
  den : ℤ
deriving DecidableEq, Repr

/-- Value order on fractions (cross-multiplication; denominators positive). -/
def Frac.Le (x y : Frac) : Prop :=
  x.num * y.den ≤ y.num * x.den

/-- Strict value order on fractions. -/
def Frac.Lt (x y : Frac) : Prop :=
  x.num * y.den < y.num * x.den

instance (x y : Frac) : Decidable (Frac.Le x y) :=
  inferInstanceAs (Decidable (_ ≤ _))

instance (x y : Frac) : Decidable (Frac.Lt x y) :=
  inferInstanceAs (Decidable (_ < _))

/-- Python `min(a, b)`: `a` when `a <= b`, else `b`. -/
def Frac.pymin (x y : Frac) : Frac :=
  if Frac.Le x y then x else y

/-- Python `max(a, b)`: `a` when `a >= b`, else `b`. -/
def Frac.pymax (x y : Frac) : Frac :=
  if Frac.Le y x then x else y

/-- Python `round` on a float with no digits argument: round half to even. -/
def pyRoundF (x : Frac) : ℤ :=
  let f := Int.fdiv x.num x.den
  let r := x.num - x.den * f
  if 2 * r < x.den then f
  else if x.den < 2 * r then f + 1
  else if f % 2 = 0 then f else f + 1

/-- Python `round(x, 2)`: round half to even at two decimal places. -/
def pyRound2F (x : Frac) : Frac :=
  ⟨pyRoundF ⟨100 * x.num, x.den⟩, 100⟩

/-- Python `f"{x:.2f}"` for a nonnegative float. -/
def formatQ2 (x : Frac) : String :=
  let n : ℤ := pyRoundF ⟨100 * x.num, x.den⟩
  let ip : ℤ := n / 100
  let fp : ℤ := n % 100
  toString ip ++ "." ++ (if fp < 10 then "0" ++ toString fp else toString fp)

/-- Statute enum from `models.py`. -/
inductive Statute
  | orchestration
  | engineering
  | effort
  | security
deriving DecidableEq, Repr

/-- String value of each `Statute` member (`models.py`). -/
def Statute.value : Statute → String
  | .orchestration => "Statute of Orchestration"
  | .engineering => "Statute of Engineering"
  | .effort => "Statute of Effort"
  | .security => "Statute of Security"

/-- Judge personas, the `Literal["Prosecutor", "Defense", "TechLead"]` type. -/
inductive Judge
  | prosecutor
  | defense
  | techLead
deriving DecidableEq, Repr

/-- String rendering of a judge persona as it appears in the Python literals. -/
def Judge.name : Judge → String
  | .prosecutor => "Prosecutor"
  | .defense => "Defense"
  | .techLead => "TechLead"

/-- Evidence model from `models.py`. -/
structure Evidence where
  id : String
  goal : String
  found : Bool
  content : Option String := none
  location : String
  rationale : String
  confidence : Frac
  tags : List String := []
deriving DecidableEq, Repr

/-- JudicialOpinion model from `models.py`. -/
structure JudicialOpinion where
  judge : Judge
  criterion_id : String
  statute : Statute := .engineering
  score : ℤ
  argument : String
  cited_evidence : List String := []
deriving DecidableEq, Repr

/-- One rubric criterion dictionary as consumed by `justice.py`:
optional keys `id`, `name`, `statute`, `remediation_templates`, `remediation`. -/
structure Criterion where
  id : Option String := none
  name : Option String := none
  statute : Option String := none
  remediation_templates : Option (List String) := none
  remediation : Option (List String) := none
deriving DecidableEq, Repr

/-- Rubric dictionary: optional `dimensions` and `criteria` keys. -/
structure Rubric where
  dimensions : Option (List Criterion) := none
  criteria : Option (List Criterion) := none
deriving DecidableEq, Repr

/-- Python `a or b or []` over optional lists: empty and missing are falsy. -/
def pyOrList {α : Type} (a b : Option (List α)) : List α :=
  match a with
  | some (x :: xs) => x :: xs
  | _ =>
    match b with
    | some (y :: ys) => y :: ys
    | _ => []

/-- The expression `rubric.get("dimensions") or rubric.get("criteria") or []`. -/
def rubricCriteria (r : Rubric) : List Criterion :=
  pyOrList r.dimensions r.criteria

/-- CriterionBreakdown model from `models.py`. -/
structure CriterionBreakdown where
  criterion_id : String
  criterion_name : String
  statute : Statute
  final_score : ℤ
  judge_opinions : List JudicialOpinion := []
  dissent_summary : String
  final_rationale : String
  violated_rules : List String := []
  remediation : List String := []
deriving DecidableEq, Repr

/-- AuditReport model from `models.py`: note that it has no `repo_target` and
no `generated_at` field. -/
structure AuditReport where
  executive_summary : String
  aggregate_score : Frac
  criterion_breakdown : List CriterionBreakdown := []
  remediation_plan : List (String × List String) := []
  evidence_index : List Evidence := []
  dissent_log : List String := []
deriving DecidableEq, Repr

/-- Pydantic construction call used by `chief_justice_node`: the keyword
arguments `repo_target` and `generated_at` are not fields of `AuditReport`
(`models.py` lines 48-54) and are discarded by the default
`extra="ignore"` model configuration. -/
def mkAuditReport (_repo_target _generated_at : String)
    (executive_summary : String) (aggregate_score : Frac)
    (criterion_breakdown : List CriterionBreakdown)
    (remediation_plan : List (String × List String))
    (evidence_index : List Evidence) (dissent_log : List String) : AuditReport :=
  { executive_summary := executive_summary
    aggregate_score := aggregate_score
    criterion_breakdown := criterion_breakdown
    remediation_plan := remediation_plan
    evidence_index := evidence_index
    dissent_log := dissent_log }

/-- Insertion-ordered string-keyed dictionary (Python `dict`). -/
abbrev StrDict (α : Type) := List (String × α)

/-- Python `d.get(k)` over an insertion-ordered dictionary with unique keys. -/
def dictGet {α : Type} (d : StrDict α) (k : String) : Option α :=
  match d.find? (fun kv => kv.1 == k) with
  | some kv => some kv.2
  | none => none

/-- Python `a | b` / `operator.ior` on dictionaries: values of `b` overwrite
values of `a`; keys of `a` keep their position, new keys of `b` append. -/
def dictUnion {α : Type} (a b : StrDict α) : StrDict α :=
  a.map (fun kv =>
    match dictGet b kv.1 with
    | some v => (kv.1, v)
    | none => kv)
  ++ b.filter (fun kv => (dictGet a kv.1).isNone)

/-- AgentState from `state.py`. -/
structure AgentState where
  repo_url : String
  pdf_path : Option String := none
  rubric : Rubric
  evidences : StrDict Evidence := []
  opinions : List JudicialOpinion := []
  routing : StrDict String := []
  logs : List String := []
  audit_report : Option AuditReport := none
  final_report : Option String := none
deriving Repr

/-- Partial state patch returned by a node; `none` fields are absent from the
returned dictionary.  Merge semantics per field come from the `Annotated`
reducers in `state.py`: `operator.ior` for `evidences` and `routing`,
`operator.add` for `opinions` and `logs`, last-writer-wins otherwise. -/
structure Patch where
  evidences : Option (StrDict Evidence) := none
  opinions : Option (List JudicialOpinion) := none
  routing : Option (StrDict String) := none
  logs : Option (List String) := none
  audit_report : Option (Option AuditReport) := none
  final_report : Option (Option String) := none
deriving Repr

/-- Fold a node's partial patch into the accumulated state using the
per-field reducers declared in `state.py`. -/
def applyPatch (s : AgentState) (p : Patch) : AgentState :=
  { repo_url := s.repo_url
    pdf_path := s.pdf_path
    rubric := s.rubric
    evidences :=
      match p.evidences with
      | some d => dictUnion s.evidences d
      | none => s.evidences
    opinions := s.opinions ++ p.opinions.getD []
    routing :=
      match p.routing with
      | some d => dictUnion s.routing d
      | none => s.routing
    logs := s.logs ++ p.logs.getD []
    audit_report := p.audit_report.getD s.audit_report
    final_report := p.final_report.getD s.final_report }

/-! ## `nodes/justice.py`: the deterministic synthesis engine -/

/-- Function `_coerce_statute` of `justice.py`. -/
def coerceStatute (raw : Option String) : Statute :=
  match raw with
  | none => .engineering
  | some s =>
    if s = "" then .engineering
    else if s = "Statute of Orchestration" then .orchestration
    else if s = "Statute of Engineering" then .engineering
    else if s = "Statute of Effort" then .effort
    else if s = "Statute of Security" then .security
    else .engineering

/-- Function `_clamp_score` of `justice.py`: `max(1, min(5, int(round(score))))`. -/
def clampScore (q : Frac) : ℤ :=
  max 1 (min 5 (pyRoundF q))

/-- Function `_missing_or_unfound_citations` of `justice.py`. -/
def missingOrUnfoundCitations (op : JudicialOpinion) (evidences : StrDict Evidence) :
    List String :=
  op.cited_evidence.filter (fun eid =>
    match dictGet evidences eid with
    | none => true
    | some ev => !ev.found)

/-- Function `_default_remediation_for_criterion` of `justice.py`. -/
def defaultRemediationForCriterion (criterion_id criterion_name : String) : List String :=
  let cid := strLower criterion_id
  let cname := strLower criterion_name
  if strContains cid "git_forensic" || strContains cname "git" then
    ["Strengthen commit hygiene: keep atomic feature commits with clear scope prefixes and rationale in commit messages.",
     "Add a short engineering timeline section in README linking major architecture milestones to commit hashes."]
  else if strContains cid "state_management" || strContains cname "state" then
    ["Tighten state contracts in src/state.py and src/models.py with explicit reducer semantics and field-level constraints.",
     "Add state-concurrency tests to verify list/dict reducers preserve parallel writes without overwrite."]
  else if strContains cid "graph_orchestration" || strContains cname "orchestration" || strContains cname "architecture" then
    ["Keep explicit fan-out/fan-in edges and conditional error branches in src/graph.py (clone_failure, missing_evidence, malformed_outputs).",
     "Add graph execution tests that assert branch reachability and successful end-to-end compilation."]
  else if strContains cid "safe_tool" || strContains cname "security" then
    ["Harden tool safety in src/tools/repo_tools.py: keep sandboxed tempfile clone, check return codes, and avoid shell execution primitives.",
     "Standardize error envelopes for subprocess and clone failures with explicit reason/action tags in Evidence content."]
  else if strContains cid "structured_output" || strContains cname "structured output" then
    ["Enforce schema-bound judge outputs in src/nodes/judges.py with with_structured_output(JudicialOpinion) and parse-failure retries.",
     "Log malformed output causes and fallback path selection for traceability."]
  else if strContains cid "judicial_nuance" || strContains cname "dialectic" || strContains cname "nuance" then
    ["Increase persona separation in src/nodes/judges.py by strengthening prompt distinctions and evidence-citation discipline.",
     "Track judge disagreement metrics and flag high prompt-similarity cases to reduce persona collusion."]
  else if strContains cid "chief_justice" || strContains cname "synthesis" then
    ["Expand deterministic rule traces in src/nodes/justice.py (before/after score, rule applied, and affected evidence ids per criterion).",
     "Expose dissent rationale and rule-application summaries directly in the final report for auditability."]
  else if strContains cid "theoretical_depth" || strContains cname "documentation" then
    ["Deepen documentation by mapping concepts (Dialectical Synthesis, Fan-In/Fan-Out, Metacognition) to concrete modules and edges.",
     "Add a concept-to-implementation table in reports/final_report.pdf for peer verification."]
  else if strContains cid "report_accuracy" || strContains cname "cross-reference" then
    ["Run citation cross-reference checks before submission and remove non-existent file claims from report narratives.",
     "Add CI validation that all report-mentioned paths exist in the audited commit."]
  else if strContains cid "swarm_visual" || strContains cname "diagram" || strContains cname "visual" then
    ["Regenerate architecture diagrams from the current compiled graph and ensure error branches are visually explicit.",
     "Keep diagram labels synchronized with node names in src/graph.py to prevent drift."]
  else
    ["Review criterion evidence and align implementation with rubric success patterns.",
     "Add targeted tests and report notes demonstrating closure of the identified gap."]

/-- The comprehension `by_judge = \x7bop.judge: op for op in criterion_ops\x7d`
followed by `.get(j)`: the last opinion of the given persona wins. -/
def lastOpinionFor (ops : List JudicialOpinion) (j : Judge) : Option JudicialOpinion :=
  (ops.filter (fun op => op.judge == j)).getLast?

/-- Deterministic fallback opinion synthesized for a missing persona
(`justice.py` lines 119-146). -/
def placeholderOpinion (j : Judge) (criterion_id : String) (statute : Statute) :
    JudicialOpinion :=
  { judge := j
    criterion_id := criterion_id
    statute := statute
    score := 1
    argument :=
      match j with
      | .prosecutor => "Missing Prosecutor opinion; defaulting to strict score."
      | .defense => "Missing Defense opinion; defaulting to minimal score."
      | .techLead => "Missing TechLead opinion; defaulting to minimal score."
    cited_evidence := [] }

/-- The expression `criterion.get("id", "unknown_criterion")`. -/
def critId (c : Criterion) : String :=
  c.id.getD "unknown_criterion"

/-- The expression `criterion.get("name", criterion_id)`. -/
def critName (c : Criterion) : String :=
  c.name.getD (critId c)

/-- Rule-of-functionality trigger: `"orchestration" in criterion_id.lower() or
"architecture" in criterion_name.lower()`. -/
def funcRuleApplies (criterion_id criterion_name : String) : Bool :=
  strContains (strLower criterion_id) "orchestration"
  || strContains (strLower criterion_name) "architecture"

/-- Baseline score over all three judges: `_clamp_score(sum(scores) / 3)`. -/
def baselineScore (p d t : ℤ) : ℤ :=
  clampScore ⟨p + d + t, 3⟩

/-- Score after the functionality-weight rule. -/
def scoreAfterFunc (criterion_id criterion_name : String) (p d t : ℤ) : ℤ :=
  if funcRuleApplies criterion_id criterion_name then
    clampScore ⟨t * 2 + p + d, 4⟩
  else baselineScore p d t

/-- Score after the fact-supremacy rule. -/
def scoreAfterFact (evidences : StrDict Evidence) (defense : JudicialOpinion)
    (criterion_id criterion_name : String) (p d t : ℤ) : ℤ :=
  if (missingOrUnfoundCitations defense evidences).isEmpty then
    scoreAfterFunc criterion_id criterion_name p d t
  else clampScore ⟨p + t, 2⟩

/-- Security-claim predicate of the security-override rule
(`justice.py` lines 168-173). -/
def securityClaimed (prosecutor : JudicialOpinion) (criterion_id : String) : Bool :=
  strContains (strLower prosecutor.argument) "security"
  || strContains (strLower prosecutor.argument) "vulnerability"
  || prosecutor.cited_evidence.contains "repo.security_scan"
  || strContains (strLower criterion_id) "security"

/-- Trigger of the security-override rule: the designated evidence item
`"repo.security_scan"` exists with `found=False` and security is claimed. -/
def securityFires (evidences : StrDict Evidence) (prosecutor : JudicialOpinion)
    (criterion_id : String) : Bool :=
  match dictGet evidences "repo.security_scan" with
  | some ev => !ev.found && securityClaimed prosecutor criterion_id
  | none => false

/-- Score after the security-override rule. -/
def scoreAfterSecurity (evidences : StrDict Evidence)
    (prosecutor defense : JudicialOpinion) (criterion_id criterion_name : String)
    (p d t : ℤ) : ℤ :=
  let s := scoreAfterFact evidences defense criterion_id criterion_name p d t
  if securityFires evidences prosecutor criterion_id then min s 3 else s

/-- Insert a string into an ascending list (code-point lexicographic order). -/
def insertAsc (x : String) : List String → List String
  | [] => [x]
  | y :: ys => if x < y then x :: y :: ys else y :: insertAsc x ys

/-- Python `sorted` on a list of strings (code-point lexicographic order). -/
def sortedStrings (l : List String) : List String :=
  l.foldr insertAsc []

/-- The expression `sorted(prosecutor_cites & defense_cites & tech_cites)`
(set intersection of the three citation sets, sorted). -/
def sharedCites (p d t : JudicialOpinion) : List String :=
  sortedStrings ((p.cited_evidence.filter (fun e =>
    d.cited_evidence.contains e && t.cited_evidence.contains e)).dedup)

/-- The `valid_shared` comprehension: shared citations that exist with
`found=True`. -/
def validShared (evidences : StrDict Evidence) (p d t : JudicialOpinion) :
    List String :=
  (sharedCites p d t).filter (fun eid =>
    match dictGet evidences eid with
    | some ev => ev.found
    | none => false)

/-- Final per-criterion score after the variance re-evaluation rule. -/
def finalScore (evidences : StrDict Evidence)
    (prosecutor defense techLead : JudicialOpinion)
    (criterion_id criterion_name : String) : ℤ :=
  let p := prosecutor.score
  let d := defense.score
  let t := techLead.score
  let s := scoreAfterSecurity evidences prosecutor defense criterion_id criterion_name p d t
  let variance := max p (max d t) - min p (min d t)
  if variance > 2 && !(validShared evidences prosecutor defense techLead).isEmpty then
    clampScore ⟨s + t, 2⟩
  else s

/-- Result of one iteration of the per-criterion loop of `chief_justice_node`. -/
structure CriterionResult where
  breakdown : CriterionBreakdown
  securityTriggered : Bool
deriving DecidableEq, Repr

/-- The opinion of persona `j` used for criterion `c`: the last opinion of
that persona among the opinions grouped under the criterion's id, or the
deterministic placeholder when the persona is missing
(`justice.py` lines 112-146). -/
def criterionOpinion (j : Judge) (opinions : List JudicialOpinion) (c : Criterion) :
    JudicialOpinion :=
  let criterion_id := c.id.getD "unknown_criterion"
  let criterion_ops := opinions.filter (fun op => op.criterion_id == criterion_id)
  (lastOpinionFor criterion_ops j).getD
    (placeholderOpinion j criterion_id (coerceStatute c.statute))

/-- The variance `max(scores) - min(scores)` over the three judge scores
used for criterion `c`. -/
def critVariance (ops : List JudicialOpinion) (c : Criterion) : ℤ :=
  max (criterionOpinion .prosecutor ops c).score
      (max (criterionOpinion .defense ops c).score (criterionOpinion .techLead ops c).score)
  - min (criterionOpinion .prosecutor ops c).score
      (min (criterionOpinion .defense ops c).score (criterionOpinion .techLead ops c).score)

/-- One iteration of the per-criterion loop of `chief_justice_node`
(`justice.py` lines 108-239). -/
def synthCriterion (evidences : StrDict Evidence)
    (opinions : List JudicialOpinion) (c : Criterion) : CriterionResult :=
  let criterion_id := c.id.getD "unknown_criterion"
  let criterion_name := c.name.getD criterion_id
  let statute := coerceStatute c.statute
  let prosecutor := criterionOpinion .prosecutor opinions c
  let defense := criterionOpinion .defense opinions c
  let techLead := criterionOpinion .techLead opinions c
  let p := prosecutor.score
  let d := defense.score
  let t := techLead.score
  let variance := max p (max d t) - min p (min d t)
  let invalidDefense := missingOrUnfoundCitations defense evidences
  let secFires := securityFires evidences prosecutor criterion_id
  let violated_rules :=
    (if funcRuleApplies criterion_id criterion_name then ["functionality_weight"] else [])
    ++ (if invalidDefense.isEmpty then [] else ["fact_supremacy"])
    ++ (if secFires then ["security_override"] else [])
    ++ (if variance > 2 then ["variance_re_evaluation"] else [])
  let base_score := finalScore evidences prosecutor defense techLead criterion_id criterion_name
  let dissent :=
    if variance > 2 then
      "High-variance dissent resolved by deterministic re-evaluation. Scores P/D/T = "
        ++ toString p ++ "/" ++ toString d ++ "/" ++ toString t
        ++ "; final=" ++ toString base_score ++ "."
    else
      "Routine dissent summary: P/D/T = "
        ++ toString p ++ "/" ++ toString d ++ "/" ++ toString t
        ++ "; final=" ++ toString base_score ++ "."
  let rem0 := pyOrList c.remediation_templates c.remediation
  let rem1 := if rem0.isEmpty then defaultRemediationForCriterion criterion_id criterion_name else rem0
  let rem2 := rem1 ++
    (if invalidDefense.isEmpty then []
     else ["Align defense claims with concrete evidence ids; remove unsupported arguments from judge prompts."])
  let remediation := rem2 ++
    (if violated_rules.contains "security_override" then
      ["Fix confirmed security issues first; security findings cap criterion and aggregate scoring."]
     else [])
  { breakdown :=
      { criterion_id := criterion_id
        criterion_name := criterion_name
        statute := statute
        final_score := base_score
        judge_opinions := [prosecutor, defense, techLead]
        dissent_summary := dissent
        final_rationale :=
          "Deterministic synthesis applied with functionality weighting, evidence checks, security override, and variance re-evaluation."
        violated_rules := violated_rules
        remediation := remediation }
    securityTriggered := secFires }

/-- Python dictionary assignment `d[k] = v` on an insertion-ordered dict. -/
def dictSet {α : Type} (d : StrDict α) (k : String) (v : α) : StrDict α :=
  if (dictGet d k).isSome then
    d.map (fun kv => if kv.1 == k then (k, v) else kv)
  else d ++ [(k, v)]

/-- Python `str(b)` for a bool. -/
def pyBool (b : Bool) : String :=
  if b then "True" else "False"

/-- Python `str.rstrip()`. -/
def rstrip (s : String) : String :=
  ⟨(s.data.reverse.dropWhile Char.isWhitespace).reverse⟩

/-- Function `render_audit_report_markdown` of `reporting.py`. -/
def renderAuditReportMarkdown (report : AuditReport) : String :=
  let lines : List String :=
    ["# Final Audit Report", "", "## Executive Summary", "",
     "- Aggregate Score: `" ++ formatQ2 report.aggregate_score ++ " / 5.0`",
     "- Verdict: " ++ report.executive_summary, "",
     "## Criterion Breakdown", ""]
    ++ (report.criterion_breakdown.flatMap (fun criterion =>
      ["### " ++ criterion.criterion_id ++ " - " ++ criterion.criterion_name,
       "- Statute: " ++ criterion.statute.value,
       "- Final Score: `" ++ toString criterion.final_score ++ "`",
       "- Final Rationale: " ++ criterion.final_rationale,
       "- Dissent Summary: " ++ criterion.dissent_summary]
      ++ (if criterion.violated_rules.isEmpty then []
          else ["- Deterministic Rules Applied: " ++ String.intercalate ", " criterion.violated_rules])
      ++ ["- Judge Opinions:"]
      ++ (criterion.judge_opinions.flatMap (fun opinion =>
        let cited :=
          if opinion.cited_evidence.isEmpty then "none"
          else String.intercalate ", " opinion.cited_evidence
        ["  - " ++ opinion.judge.name ++ ": score=" ++ toString opinion.score
           ++ ", statute=" ++ opinion.statute.value ++ ", cited_evidence=" ++ cited,
         "    - Argument: " ++ opinion.argument]))
      ++ ["- Remediation:"]
      ++ criterion.remediation.map (fun item => "  - " ++ item)
      ++ [""]))
    ++ ["## Remediation Plan", ""]
    ++ (report.remediation_plan.flatMap (fun kv =>
      ["### " ++ kv.1] ++ kv.2.map (fun item => "- " ++ item) ++ [""]))
    ++ ["## Dissent Log", ""]
    ++ report.dissent_log.map (fun dissent => "- " ++ dissent)
    ++ [""]
    ++ ["## Evidence Index", ""]
    ++ (report.evidence_index.flatMap (fun ev =>
      ["### " ++ ev.id,
       "- Goal: " ++ ev.goal,
       "- Found: `" ++ pyBool ev.found ++ "`",
       "- Location: `" ++ ev.location ++ "`",
       "- Confidence: `" ++ formatQ2 ev.confidence ++ "`",
       "- Rationale: " ++ ev.rationale]
      ++ (match ev.content with
          | some content =>
            if content = "" then [] else ["- Content:", "```text", content, "```"]
          | none => [])
      ++ [""]))
  rstrip (String.intercalate "\n" lines) ++ "\n"

/-- The `AuditReport` value built by `chief_justice_node`
(`justice.py` lines 94-262).  The `now` argument models
`datetime.now(timezone.utc).isoformat()`; it is passed to the pydantic
constructor as the `generated_at` keyword, which `AuditReport` discards. -/
def chiefJusticeReport (now : String) (state : AgentState) : AuditReport :=
  let criteria := rubricCriteria state.rubric
  let results := criteria.map (synthCriterion state.evidences state.opinions)
  let breakdown := results.map (·.breakdown)
  let dissent_log := results.map (fun r =>
    r.breakdown.criterion_id ++ ": " ++ r.breakdown.dissent_summary)
  let remediation_plan := results.foldl (fun acc r =>
    dictSet acc r.breakdown.criterion_id r.breakdown.remediation) []
  let aggregate_scores := results.map (·.breakdown.final_score)
  let security_override_triggered := results.any (·.securityTriggered)
  let agg0 : Frac := ⟨aggregate_scores.sum, (max 1 aggregate_scores.length : ℤ)⟩
  let agg1 : Frac := if security_override_triggered then Frac.pymin agg0 ⟨3, 1⟩ else agg0
  let aggregate_score : Frac := Frac.pymax ⟨1, 1⟩ (pyRound2F agg1)
  let summary_parts :=
    ["Chief Justice synthesis completed with deterministic conflict resolution.",
     "Applied Rule of Evidence and dissent enforcement across all criteria."]
    ++ (if security_override_triggered then
          ["Rule of Security triggered: aggregate score capped at 3.0."]
        else [])
  mkAuditReport state.repo_url now
    (String.intercalate " " summary_parts) aggregate_score breakdown
    remediation_plan (state.evidences.map (·.2)) dissent_log

/-- Function `chief_justice_node` of `justice.py`: its returned partial
state patch. -/
def chiefJusticeNode (now : String) (state : AgentState) : Patch :=
  let report := chiefJusticeReport now state
  { audit_report := some (some report)
    final_report := some (some (renderAuditReportMarkdown report))
    logs := some ["Chief Justice completed"] }

/-! ## `nodes/orchestration.py`: judicial integrity check -/

/-- The set comprehension collecting known rubric criterion ids in
`run_judicial_integrity_check` (`orchestration.py` lines 323-328);
items with a missing or empty (falsy) `id` are skipped. -/
def integrityCriterionIds (r : Rubric) : List String :=
  ((rubricCriteria r).filterMap (fun c =>
    match c.id with
    | some s => if s = "" then none else some s
    | none => none)).dedup

/-- The `malformed_reasons` list built by `run_judicial_integrity_check`. -/
def judicialMalformedReasons (r : Rubric) (opinions : List JudicialOpinion) :
    List String :=
  let ids := integrityCriterionIds r
  (if ids.isEmpty then ["rubric_missing_criteria"] else [])
  ++ opinions.flatMap (fun op =>
    (if ids.contains op.criterion_id then []
     else ["unknown_criterion_id:" ++ op.criterion_id])
    ++ (if 1 ≤ op.score ∧ op.score ≤ 5 then []
        else ["invalid_score:" ++ op.judge.name ++ ":" ++ op.criterion_id
                ++ ":" ++ toString op.score]))
  ++ (let expected := if ids.isEmpty then 0 else ids.length * 3
      if expected ≠ 0 ∧ opinions.length < expected then
        ["incomplete_judicial_output:expected=" ++ toString expected
           ++ ",actual=" ++ toString opinions.length]
      else [])

/-- Function `run_judicial_integrity_check` of `orchestration.py`. -/
def runJudicialIntegrityCheck (state : AgentState) : Patch :=
  let reasons := judicialMalformedReasons state.rubric state.opinions
  let branch := if reasons.isEmpty then "chief_justice" else "malformed_outputs_handler"
  let detail :=
    if reasons.isEmpty then "all_opinions_well_formed"
    else String.intercalate ", " (sortedStrings reasons.dedup)
  { routing := some [("judicial_branch", branch)]
    logs := some ["JudicialIntegrityCheck selected " ++ branch ++ ": " ++ detail] }

/-! ## `nodes/judges.py`: persona-collusion guard -/

/-- The `max_similarity` value computed by `detect_persona_collusion`
(`judges.py` lines 338-349): pairwise similarity between the concatenated
arguments of each judge pair with both texts nonempty, `0.0` when no pair
qualifies.  The textual similarity `difflib.SequenceMatcher(None, a, b).ratio()`
is an external library computation, modelled by the `simFn` parameter. -/
def maxPairSimilarity (simFn : String → String → Frac) (state : AgentState) : Frac :=
  let textFor := fun (j : Judge) =>
    String.intercalate " " ((state.opinions.filter (fun op => op.judge == j)).map (·.argument))
  let pairs := [(Judge.prosecutor, Judge.defense),
                (Judge.prosecutor, Judge.techLead),
                (Judge.defense, Judge.techLead)]
  let similarities := pairs.filterMap (fun pr =>
    let tl := textFor pr.1
    let tr := textFor pr.2
    if tl ≠ "" ∧ tr ≠ "" then some (simFn tl tr) else none)
  match similarities with
  | [] => ⟨0, 1⟩
  | x :: xs => xs.foldl (fun cur v => if Frac.Lt cur v then v else cur) x

/-- Function `detect_persona_collusion` of `judges.py`. -/
def detectPersonaCollusion (simFn : String → String → Frac) (state : AgentState) :
    Patch :=
  let maxSim := maxPairSimilarity simFn state
  if Frac.Le ⟨9, 10⟩ maxSim then
    { opinions := some (state.opinions.map (fun op => { op with score := min op.score 2 }))
      logs := some ["Persona collusion detected (max_similarity="
                      ++ formatQ2 maxSim ++ "); scores capped"] }
  else
    { logs := some ["No persona collusion (max_similarity=" ++ formatQ2 maxSim ++ ")"] }

/-! ## `graph.py`: node registry, edges and routing predicates -/

/-- The node functions of this repository that can be registered in a graph:
the thirteen functions `build_graph` registers, plus the two functions
(`detect_persona_collusion`, `run_judicial_integrity_check`) that exist in
the codebase and could be registered. -/
inductive NodeFunc
  | runRepoInvestigator
  | runOrchestrationPrecheck
  | runDocAnalyst
  | runDocSkipped
  | runVisionInspector
  | runEvidenceAggregator
  | runOrchestrationPostcheck
  | runJudicialFanout
  | runMissingArtifactsHandler
  | prosecutorNode
  | defenseNode
  | techLeadNode
  | chiefJusticeNode
  | detectPersonaCollusion
  | runJudicialIntegrityCheck
deriving DecidableEq, Repr

/-- The `builder.add_node` registry of `build_graph` (`graph.py` lines 92-104). -/
def graphNodes : List (String × NodeFunc) :=
  [("repo_investigator", .runRepoInvestigator),
   ("orchestration_precheck", .runOrchestrationPrecheck),
   ("doc_analyst", .runDocAnalyst),
   ("doc_skipped", .runDocSkipped),
   ("vision_inspector", .runVisionInspector),
   ("evidence_aggregator", .runEvidenceAggregator),
   ("orchestration_postcheck", .runOrchestrationPostcheck),
   ("judicial_fanout", .runJudicialFanout),
   ("missing_artifacts_handler", .runMissingArtifactsHandler),
   ("prosecutor", .prosecutorNode),
   ("defense", .defenseNode),
   ("tech_lead", .techLeadNode),
   ("chief_justice", .chiefJusticeNode)]

/-- The `builder.add_edge` calls of `build_graph` (`graph.py` lines 106-127),
with `START` and `END` written as the LangGraph sentinel names. -/
def graphStaticEdges : List (String × String) :=
  [("__start__", "repo_investigator"),
   ("__start__", "orchestration_precheck"),
   ("__start__", "vision_inspector"),
   ("repo_investigator", "evidence_aggregator"),
   ("doc_analyst", "evidence_aggregator"),
   ("doc_skipped", "evidence_aggregator"),
   ("vision_inspector", "evidence_aggregator"),
   ("evidence_aggregator", "orchestration_postcheck"),
   ("judicial_fanout", "prosecutor"),
   ("judicial_fanout", "defense"),
   ("judicial_fanout", "tech_lead"),
   ("prosecutor", "chief_justice"),
   ("defense", "chief_justice"),
   ("tech_lead", "chief_justice"),
   ("missing_artifacts_handler", "__end__"),
   ("chief_justice", "__end__")]

/-- The two `add_conditional_edges` calls of `build_graph`, with the target
label sets taken from the `Literal` return types of the routing predicates. -/
def graphCondTargets : List (String × List String) :=
  [("orchestration_precheck", ["doc_analyst", "doc_skipped"]),
   ("orchestration_postcheck", ["judicial_fanout", "missing_artifacts_handler"])]

/-- All possible successors of a node in the compiled graph. -/
def successors (n : String) : List String :=
  (graphStaticEdges.filter (fun e => e.1 == n)).map (·.2)
  ++ (graphCondTargets.filter (fun e => e.1 == n)).flatMap (·.2)

/-- Function `_route_doc_branch` of `graph.py`. -/
def routeDocBranch (s : AgentState) : String :=
  (dictGet s.routing "doc_branch").getD "doc_skipped"

/-- Function `_route_post_orchestration` of `graph.py`. -/
def routePostOrchestration (s : AgentState) : String :=
  if dictGet s.routing "post_branch" == some "judicial" then "judicial_fanout"
  else "missing_artifacts_handler"

/-! ## `nodes/detectives.py`: detective nodes and the degraded-path handler -/

/-- Function `run_repo_investigator` of `detectives.py`, parameterized by the
evidence items the four repo protocols return (external git/file-system work). -/
def runRepoInvestigator (evs : List Evidence) : Patch :=
  { evidences := some (evs.foldl (fun acc ev => dictSet acc ev.id ev) [])
    logs := some ["RepoInvestigator completed"] }

/-- Function `run_doc_analyst` of `detectives.py`, parameterized by the two
evidence items produced by the document protocols. -/
def runDocAnalyst (citation concept : Evidence) : Patch :=
  { evidences := some (dictSet (dictSet [] citation.id citation) concept.id concept)
    logs := some ["DocAnalyst completed"] }

/-- Function `run_doc_skipped` of `detectives.py`. -/
def runDocSkipped (_state : AgentState) : Patch :=
  { logs := some ["DocAnalyst skipped: no PDF report path provided; continuing with repository-only evidence."] }

/-- Function `run_evidence_aggregator` of `detectives.py`. -/
def runEvidenceAggregator (state : AgentState) : Patch :=
  let count := state.evidences.length
  let hasRepo := state.evidences.any (fun kv => kv.1.startsWith "repo." && kv.2.found)
  let hasDoc := state.evidences.any (fun kv => kv.1.startsWith "doc." && kv.2.found)
  let docRequired :=
    match state.pdf_path with
    | some s => s ≠ ""
    | none => false
  let status := if hasRepo && (hasDoc || !docRequired) then "ready" else "incomplete"
  { logs := some ["EvidenceAggregator completed: evidence_count=" ++ toString count
      ++ ", repo_evidence=" ++ pyBool hasRepo ++ ", doc_evidence=" ++ pyBool hasDoc
      ++ ", doc_required=" ++ pyBool docRequired ++ ", status=" ++ status] }

/-- Function `run_missing_artifacts_handler` of `detectives.py`. -/
def runMissingArtifactsHandler (_state : AgentState) : Patch :=
  { logs := some ["MissingArtifactsHandler: required detective evidence was incomplete; continuing with partial output for graceful degradation."] }

/-- Patch shape shared by both orchestration routing nodes: every return path
of `run_orchestration_precheck` and `run_orchestration_postcheck` produces a
single routing key plus one log line; the branch chosen and the log text
depend on external LLM calls and are parameters. -/
def orchestrationRoutingPatch (key branch log : String) : Patch :=
  { routing := some [(key, branch)]
    logs := some [log] }

/-- Modelled from the spec: `run_vision_inspector` is registered by
`build_graph` but its definition is not present under src/ (only its import
and the `protocol_visual_audit` tool it calls are).  Per the spec (§2, §4.1,
§3) it is an evidence-gathering node: a pure function of the state returning
a patch of evidence records plus log lines. -/
def runVisionInspector (evs : List Evidence) : Patch :=
  { evidences := some (evs.foldl (fun acc ev => dictSet acc ev.id ev) [])
    logs := some ["VisionInspector completed"] }

/-! ## `tools/repo_tools.py`: the security-scan protocol -/

/-- Shape of the callee of a Python `ast.Call` node, as far as
`protocol_security_scan` inspects it. -/
inductive PyCallee
  | attrCall (value : String) (attr : String)
  | nameCall (id : String)
  | otherCallee
deriving DecidableEq, Repr

/-- One keyword argument of a call: its name and whether its value is the
literal `True`. -/
structure PyKeywordArg where
  arg : Option String
  valueIsTrue : Bool
deriving DecidableEq, Repr

/-- One call site found by `ast.walk`. -/
structure PyCall where
  callee : PyCallee
  keywords : List PyKeywordArg
deriving DecidableEq, Repr

/-- The risky-pattern hits one call contributes
(`repo_tools.py` lines 298-323). -/
def riskyHitsOfCall (file : String) (c : PyCall) : List String :=
  match c.callee with
  | .attrCall v a =>
    (if v = "os" ∧ a = "system" then [file ++ ":os.system"] else [])
    ++ (if v = "subprocess" ∧ a = "run"
           ∧ c.keywords.any (fun k => k.arg == some "shell" && k.valueIsTrue) then
          [file ++ ":subprocess.run(shell=True)"]
        else [])
  | .nameCall id => if id = "eval" ∨ id = "exec" then [file ++ ":" ++ id] else []
  | .otherCallee => []

/-- The `risky_hits` list over all scanned files (each file is its path plus
the call nodes `ast.walk` yields; directory exclusion and files failing to
parse are handled by the file-system collaborator producing this list). -/
def securityRiskyHits (files : List (String × List PyCall)) : List String :=
  files.flatMap (fun f => f.2.flatMap (riskyHitsOfCall f.1))

/-- Function `protocol_security_scan` of `repo_tools.py`.  `resolved` is the
outcome of `resolve_repo`: `none` models a resolution failure with message
`excMsg`, `some (repoPath, files)` a successful resolution. -/
def protocolSecurityScan (target : String)
    (resolved : Option (String × List (String × List PyCall)))
    (excMsg : String) : Evidence :=
  match resolved with
  | none =>
    { id := "repo.security_scan"
      goal := "Identify risky command execution patterns."
      found := false
      location := target
      rationale := "Repository resolution failed: " ++ excMsg
      confidence := ⟨1, 1⟩
      tags := ["security", "repo_access_error"] }
  | some (repoPath, files) =>
    let risky := securityRiskyHits files
    { id := "repo.security_scan"
      goal := "Identify risky command execution patterns."
      found := risky.isEmpty
      content := some (if risky.isEmpty then "No risky patterns matched."
                       else String.intercalate "\n" (risky.take 20))
      location := repoPath
      rationale := "Pattern scan for unsafe execution primitives."
      confidence := ⟨3, 4⟩
      tags := ["security"] }

/-! ## Concrete fixtures used by witnesses and counterexamples -/

/-- Security-scan evidence item with `found=False` (a risky pattern was found). -/
def cx1SecurityEvidence : Evidence :=
  { id := "repo.security_scan"
    goal := "Identify risky command execution patterns."
    found := false
    location := "repo"
    rationale := "Pattern scan for unsafe execution primitives."
    confidence := ⟨3, 4⟩
    tags := ["security"] }

/-- Evidence item with `found=True` that all three judges cite. -/
def cx1SharedEvidence : Evidence :=
  { id := "repo.graph_wiring"
    goal := "Verify fan-out/fan-in graph topology."
    found := true
    location := "src/graph.py"
    rationale := "AST traversal."
    confidence := ⟨17, 20⟩
    tags := ["orchestration"] }

/-- Evidence map containing the failed security scan and a found item. -/
def cx1Evidences : StrDict Evidence :=
  [("repo.security_scan", cx1SecurityEvidence), ("repo.graph_wiring", cx1SharedEvidence)]

/-- Security-tagged criterion (id contains "security"). -/
def cx1Criterion : Criterion :=
  { id := some "security_check" }

/-- Opinions [P=5, D=1, T=5] on the security criterion, all citing the same
`found=True` evidence id. -/
def cx1Opinions : List JudicialOpinion :=
  [{ judge := .prosecutor, criterion_id := "security_check", score := 5,
     argument := "Vulnerability confirmed by the failed scan.",
     cited_evidence := ["repo.graph_wiring"] },
   { judge := .defense, criterion_id := "security_check", score := 1,
     argument := "Mitigations are in place.",
     cited_evidence := ["repo.graph_wiring"] },
   { judge := .techLead, criterion_id := "security_check", score := 5,
     argument := "Architecture is sound.",
     cited_evidence := ["repo.graph_wiring"] }]

/-- Opinions [P=5, D=1, T=5] with no citations at all (so the variance rule
cannot modify the score). -/
def w1Opinions : List JudicialOpinion :=
  [{ judge := .prosecutor, criterion_id := "security_check", score := 5,
     argument := "Security flaw found in tool execution.", cited_evidence := [] },
   { judge := .defense, criterion_id := "security_check", score := 1,
     argument := "Effort was made.", cited_evidence := [] },
   { judge := .techLead, criterion_id := "security_check", score := 5,
     argument := "Pipeline is viable.", cited_evidence := [] }]

/-- Run state for the security-override witness. -/
def w1State : AgentState :=
  { repo_url := "https://github.com/example/repo"
    rubric := { dimensions := some [cx1Criterion] }
    evidences := [("repo.security_scan", cx1SecurityEvidence)]
    opinions := w1Opinions }

/-- Evidence item cited by all three judges in the variance witness. -/
def w2Evidence : Evidence :=
  { id := "repo.state_structure"
    goal := "Verify typed state definitions."
    found := true
    location := "src/state.py"
    rationale := "Typed state markers."
    confidence := ⟨23, 25⟩
    tags := ["orchestration", "state"] }

/-- Evidence map for the variance witness. -/
def w2Evidences : StrDict Evidence :=
  [("repo.state_structure", w2Evidence)]

/-- Engineering criterion (no functionality-weight trigger). -/
def w2Criterion : Criterion :=
  { id := some "C2_Engineering", statute := some "Statute of Engineering" }

/-- Opinions [P=5, D=5, T=1] (variance 4 > 2) all citing the same
`found=True` evidence id. -/
def w2Opinions : List JudicialOpinion :=
  [{ judge := .prosecutor, criterion_id := "C2_Engineering", score := 5,
     argument := "Strong typed contracts.", cited_evidence := ["repo.state_structure"] },
   { judge := .defense, criterion_id := "C2_Engineering", score := 5,
     argument := "Evidence-backed rigor.", cited_evidence := ["repo.state_structure"] },
   { judge := .techLead, criterion_id := "C2_Engineering", score := 1,
     argument := "Contracts look brittle in practice.", cited_evidence := ["repo.state_structure"] }]

/-- Evidence map for the fact-supremacy witness. -/
def w3Evidences : StrDict Evidence :=
  [("repo.git_narrative",
    { id := "repo.git_narrative"
      goal := "Assess whether engineering happened in atomic increments."
      found := true
      location := "git log"
      rationale := "Commit history."
      confidence := ⟨7, 10⟩
      tags := ["effort", "process", "git"] })]

/-- Effort criterion for the fact-supremacy witness. -/
def w3Criterion : Criterion :=
  { id := some "C3_Effort", statute := some "Statute of Effort" }

/-- Opinions where the Defense cites a nonexistent evidence id. -/
def w3BadOpinions : List JudicialOpinion :=
  [{ judge := .prosecutor, criterion_id := "C3_Effort", score := 4,
     argument := "Commits are shallow.", cited_evidence := [] },
   { judge := .defense, criterion_id := "C3_Effort", score := 4,
     argument := "A hidden report proves diligence.", cited_evidence := ["doc.missing_citation"] },
   { judge := .techLead, criterion_id := "C3_Effort", score := 2,
     argument := "History is thin.", cited_evidence := [] }]

/-- Opinions where every Defense citation exists with `found=True`. -/
def w3GoodOpinions : List JudicialOpinion :=
  [{ judge := .prosecutor, criterion_id := "C3_Effort", score := 4,
     argument := "Commits are shallow.", cited_evidence := [] },
   { judge := .defense, criterion_id := "C3_Effort", score := 4,
     argument := "The commit log shows steady work.", cited_evidence := ["repo.git_narrative"] },
   { judge := .techLead, criterion_id := "C3_Effort", score := 2,
     argument := "History is thin.", cited_evidence := [] }]

/-- Orchestration criterion (id contains "orchestration" when lowercased). -/
def w4OrchCriterion : Criterion :=
  { id := some "C1_Orchestration", statute := some "Statute of Orchestration" }

/-- Opinions [P=2, D=4, T=3] on the orchestration criterion. -/
def w4OrchOpinions : List JudicialOpinion :=
  [{ judge := .prosecutor, criterion_id := "C1_Orchestration", score := 2,
     argument := "Fan-out is partial.", cited_evidence := [] },
   { judge := .defense, criterion_id := "C1_Orchestration", score := 4,
     argument := "Parallel branches exist.", cited_evidence := [] },
   { judge := .techLead, criterion_id := "C1_Orchestration", score := 3,
     argument := "Wiring is serviceable.", cited_evidence := [] }]

/-- Opinions [P=2, D=4, T=3] on the engineering criterion. -/
def w4EngOpinions : List JudicialOpinion :=
  [{ judge := .prosecutor, criterion_id := "C2_Engineering", score := 2,
     argument := "Validation is loose.", cited_evidence := [] },
   { judge := .defense, criterion_id := "C2_Engineering", score := 4,
     argument := "Models are typed.", cited_evidence := [] },
   { judge := .techLead, criterion_id := "C2_Engineering", score := 3,
     argument := "Contracts are adequate.", cited_evidence := [] }]

/-- Criterion for the missing-persona witness. -/
def w5Criterion : Criterion :=
  { id := some "C5_dimension" }

/-- Only Prosecutor and TechLead opinions; Defense is absent. -/
def w5Opinions : List JudicialOpinion :=
  [{ judge := .prosecutor, criterion_id := "C5_dimension", score := 4,
     argument := "Claims are partly verified.", cited_evidence := [] },
   { judge := .techLead, criterion_id := "C5_dimension", score := 4,
     argument := "Implementation holds up.", cited_evidence := [] }]

/-- Run state with an opinion whose criterion id is unknown to the rubric. -/
def w6BadState : AgentState :=
  { repo_url := "r"
    rubric := { dimensions := some [w4OrchCriterion] }
    opinions := [{ judge := .prosecutor, criterion_id := "ghost_criterion", score := 3,
                   argument := "Stray opinion.", cited_evidence := [] }] }

/-- Run state whose opinions all pass the integrity validations. -/
def w6GoodState : AgentState :=
  { repo_url := "r"
    rubric := { dimensions := some [w4OrchCriterion] }
    opinions := w4OrchOpinions }

/-- Run state with three near-identical judge arguments. -/
def w7State : AgentState :=
  { repo_url := "r"
    rubric := { dimensions := some [w4OrchCriterion] }
    opinions :=
      [{ judge := .prosecutor, criterion_id := "C1_Orchestration", score := 5,
         argument := "the wiring is excellent and complete", cited_evidence := [] },
       { judge := .defense, criterion_id := "C1_Orchestration", score := 4,
         argument := "the wiring is excellent and complete", cited_evidence := [] },
       { judge := .techLead, criterion_id := "C1_Orchestration", score := 3,
         argument := "the wiring is excellent and complete", cited_evidence := [] }] }

/-- Similarity collaborator reporting 0.95 for every pair. -/
def w7SimHigh : String → String → Frac :=
  fun _ _ => ⟨19, 20⟩

/-- Similarity collaborator reporting 0.50 for every pair. -/
def w7SimLow : String → String → Frac :=
  fun _ _ => ⟨1, 2⟩

/-- First run state of the determinism witness. -/
def w8StateA : AgentState :=
  { repo_url := "https://github.com/example/alpha"
    pdf_path := none
    rubric := { dimensions := some [w2Criterion] }
    evidences := w2Evidences
    opinions := w4EngOpinions
    routing := []
    logs := [] }

/-- Second run state: same (evidences, opinions, rubric) triple, but a
different repo target, report path, routing and log history. -/
def w8StateB : AgentState :=
  { repo_url := "https://github.com/example/beta"
    pdf_path := some "reports/final_report.pdf"
    rubric := { dimensions := some [w2Criterion] }
    evidences := w2Evidences
    opinions := w4EngOpinions
    routing := [("doc_branch", "doc_analyst")]
    logs := ["unrelated log entry"] }

/-- Parsed file containing an `os.system` call plus a safe `subprocess.run`. -/
def w9RiskyFiles : List (String × List PyCall) :=
  [("app.py",
    [{ callee := .attrCall "os" "system", keywords := [] },
     { callee := .attrCall "subprocess" "run",
       keywords := [{ arg := some "check", valueIsTrue := true }] }])]

/-- Parsed file with no risky execution pattern. -/
def w9CleanFiles : List (String × List PyCall) :=
  [("app.py",
    [{ callee := .attrCall "subprocess" "run",
       keywords := [{ arg := some "shell", valueIsTrue := false }] },
     { callee := .nameCall "print", keywords := [] }])]

/-- Run state whose evidence map has no `"repo.security_scan"` key. -/
def w9State : AgentState :=
  { repo_url := "r"
    rubric := { dimensions := some [w2Criterion] }
    evidences := [("repo.graph_wiring", cx1SharedEvidence)]
    opinions := w4EngOpinions }

/-- Run state for the security-override counterexample: one security-tagged
criterion, failed security scan, and a `found=True` evidence id shared by
all three judges. -/
def cx1State : AgentState :=
  { repo_url := "https://github.com/example/repo"
    rubric := { dimensions := some [cx1Criterion] }
    evidences := cx1Evidences
    opinions := cx1Opinions }

/-- Degraded run state: the post-check routed to `clone_failure`. -/
def w10State : AgentState :=
  { repo_url := "https://github.com/example/missing"
    pdf_path := none
    rubric := { dimensions := some [w4OrchCriterion] }
    evidences := [("repo.state_structure",
      { id := "repo.state_structure"
        goal := "Verify typed state definitions."
        found := false
        location := "https://github.com/example/missing"
        rationale := "Repository resolution failed: git clone failed"
        confidence := ⟨1, 1⟩
        tags := ["orchestration", "state", "repo_access_error"] })]
    opinions := []
    routing := [("doc_branch", "doc_skipped"), ("post_branch", "clone_failure")]
    logs := ["RepoInvestigator completed"]
    audit_report := none
    final_report := none }

/-! ## Shared lemmas about the embedding -/

lemma synthCriterion_violated_rules (ev : StrDict Evidence)
    (ops : List JudicialOpinion) (c : Criterion) :
    (synthCriterion ev ops c).breakdown.violated_rules =
      (if funcRuleApplies (critId c) (critName c) then ["functionality_weight"] else [])
      ++ (if (missingOrUnfoundCitations (criterionOpinion .defense ops c) ev).isEmpty
          then [] else ["fact_supremacy"])
      ++ (if securityFires ev (criterionOpinion .prosecutor ops c) (critId c)
          then ["security_override"] else [])
      ++ (if critVariance ops c > 2 then ["variance_re_evaluation"] else []) := rfl

lemma synthCriterion_final_score (ev : StrDict Evidence)
    (ops : List JudicialOpinion) (c : Criterion) :
    (synthCriterion ev ops c).breakdown.final_score =
      finalScore ev (criterionOpinion .prosecutor ops c) (criterionOpinion .defense ops c)
        (criterionOpinion .techLead ops c) (critId c) (critName c) := rfl

lemma synthCriterion_securityTriggered (ev : StrDict Evidence)
    (ops : List JudicialOpinion) (c : Criterion) :
    (synthCriterion ev ops c).securityTriggered =
      securityFires ev (criterionOpinion .prosecutor ops c) (critId c) := rfl

lemma synthCriterion_judge_opinions (ev : StrDict Evidence)
    (ops : List JudicialOpinion) (c : Criterion) :
    (synthCriterion ev ops c).breakdown.judge_opinions =
      [criterionOpinion .prosecutor ops c, criterionOpinion .defense ops c,
       criterionOpinion .techLead ops c] := rfl

lemma chiefJusticeReport_aggregate (now : String) (s : AgentState) :
    (chiefJusticeReport now s).aggregate_score =
      Frac.pymax ⟨1, 1⟩ (pyRound2F
        (if ((rubricCriteria s.rubric).map (synthCriterion s.evidences s.opinions)).any
              (·.securityTriggered) then
          Frac.pymin
            ⟨(((rubricCriteria s.rubric).map (synthCriterion s.evidences s.opinions)).map
                (·.breakdown.final_score)).sum,
             (max 1 (((rubricCriteria s.rubric).map (synthCriterion s.evidences s.opinions)).map
                (·.breakdown.final_score)).length : ℤ)⟩ ⟨3, 1⟩
        else
          ⟨(((rubricCriteria s.rubric).map (synthCriterion s.evidences s.opinions)).map
              (·.breakdown.final_score)).sum,
           (max 1 (((rubricCriteria s.rubric).map (synthCriterion s.evidences s.opinions)).map
              (·.breakdown.final_score)).length : ℤ)⟩)) := rfl

lemma synthCriterion_contains_func (ev : StrDict Evidence)
    (ops : List JudicialOpinion) (c : Criterion) :
    (synthCriterion ev ops c).breakdown.violated_rules.contains "functionality_weight"
      = funcRuleApplies (critId c) (critName c) := by
  rw [synthCriterion_violated_rules]
  by_cases h1 : funcRuleApplies (critId c) (critName c) = true <;>
  by_cases h2 : (missingOrUnfoundCitations (criterionOpinion .defense ops c) ev).isEmpty = true <;>
  by_cases h3 : securityFires ev (criterionOpinion .prosecutor ops c) (critId c) = true <;>
  by_cases h4 : critVariance ops c > 2 <;>
  simp [h1, h2, h3, h4]

lemma synthCriterion_contains_fact (ev : StrDict Evidence)
    (ops : List JudicialOpinion) (c : Criterion) :
    (synthCriterion ev ops c).breakdown.violated_rules.contains "fact_supremacy"
      = !(missingOrUnfoundCitations (criterionOpinion .defense ops c) ev).isEmpty := by
  rw [synthCriterion_violated_rules]
  by_cases h1 : funcRuleApplies (critId c) (critName c) = true <;>
  by_cases h2 : (missingOrUnfoundCitations (criterionOpinion .defense ops c) ev).isEmpty = true <;>
  by_cases h3 : securityFires ev (criterionOpinion .prosecutor ops c) (critId c) = true <;>
  by_cases h4 : critVariance ops c > 2 <;>
  simp [h1, h2, h3, h4]

lemma synthCriterion_contains_security (ev : StrDict Evidence)
    (ops : List JudicialOpinion) (c : Criterion) :
    (synthCriterion ev ops c).breakdown.violated_rules.contains "security_override"
      = securityFires ev (criterionOpinion .prosecutor ops c) (critId c) := by
  rw [synthCriterion_violated_rules]
  by_cases h1 : funcRuleApplies (critId c) (critName c) = true <;>
  by_cases h2 : (missingOrUnfoundCitations (criterionOpinion .defense ops c) ev).isEmpty = true <;>
  by_cases h3 : securityFires ev (criterionOpinion .prosecutor ops c) (critId c) = true <;>
  by_cases h4 : critVariance ops c > 2 <;>
  simp [h1, h2, h3, h4]

lemma synthCriterion_contains_variance (ev : StrDict Evidence)
    (ops : List JudicialOpinion) (c : Criterion) :
    (synthCriterion ev ops c).breakdown.violated_rules.contains "variance_re_evaluation"
      = decide (critVariance ops c > 2) := by
  rw [synthCriterion_violated_rules]
  by_cases h1 : funcRuleApplies (critId c) (critName c) = true <;>
  by_cases h2 : (missingOrUnfoundCitations (criterionOpinion .defense ops c) ev).isEmpty = true <;>
  by_cases h3 : securityFires ev (criterionOpinion .prosecutor ops c) (critId c) = true <;>
  by_cases h4 : critVariance ops c > 2 <;>
  simp [h1, h2, h3, h4]

lemma pyRoundF_le_int (x : Frac) (hden : 0 < x.den) (n : ℤ) (h : x.num ≤ n * x.den) :
    pyRoundF x ≤ n := by
  have hfd : Int.fdiv x.num x.den = x.num / x.den := Int.fdiv_eq_ediv _ (le_of_lt hden)
  have hqn : x.num / x.den ≤ n := by
    have h2 := Int.ediv_le_ediv hden h
    rwa [Int.mul_ediv_cancel _ (ne_of_gt hden)] at h2
  have he := Int.ediv_add_emod x.num x.den
  have hm := Int.emod_nonneg x.num (ne_of_gt hden)
  have hlt : ∀ hr : 0 < x.num - x.den * (x.num / x.den), x.num / x.den + 1 ≤ n := by
    intro hr
    have h5 : x.den * (x.num / x.den) < x.den * n := by
      have h6 : x.den * (x.num / x.den) < x.num := by omega
      calc x.den * (x.num / x.den) < x.num := h6
        _ ≤ n * x.den := h
        _ = x.den * n := by ring
    have := lt_of_mul_lt_mul_left h5 (le_of_lt hden)
    omega
  simp only [pyRoundF, hfd]
  split_ifs with hb1 hb2 hb3
  · exact hqn
  · exact hlt (by omega)
  · exact hqn
  · exact hlt (by omega)

lemma aggregate_le_three (scores : List ℤ) :
    Frac.Le (Frac.pymax ⟨1, 1⟩ (pyRound2F
      (Frac.pymin ⟨scores.sum, (max 1 scores.length : ℤ)⟩ ⟨3, 1⟩))) ⟨3, 1⟩ := by
  have hnL : (0 : ℤ) < (max 1 scores.length : ℤ) := by
    have : (1 : ℤ) ≤ max 1 (scores.length : ℤ) := le_max_left _ _
    omega
  have hm : 0 < (Frac.pymin ⟨scores.sum, (max 1 scores.length : ℤ)⟩ ⟨3, 1⟩).den
      ∧ (Frac.pymin ⟨scores.sum, (max 1 scores.length : ℤ)⟩ ⟨3, 1⟩).num
          ≤ 3 * (Frac.pymin ⟨scores.sum, (max 1 scores.length : ℤ)⟩ ⟨3, 1⟩).den := by
    unfold Frac.pymin
    split_ifs with hle
    · refine ⟨hnL, ?_⟩
      unfold Frac.Le at hle
      simp only at hle ⊢
      omega
    · exact ⟨by norm_num, by norm_num⟩
  have h300 : pyRoundF ⟨100 * (Frac.pymin ⟨scores.sum, (max 1 scores.length : ℤ)⟩ ⟨3, 1⟩).num,
      (Frac.pymin ⟨scores.sum, (max 1 scores.length : ℤ)⟩ ⟨3, 1⟩).den⟩ ≤ 300 := by
    refine pyRoundF_le_int
      ⟨100 * (Frac.pymin ⟨scores.sum, (max 1 scores.length : ℤ)⟩ ⟨3, 1⟩).num,
       (Frac.pymin ⟨scores.sum, (max 1 scores.length : ℤ)⟩ ⟨3, 1⟩).den⟩ hm.1 300 ?_
    have := hm.2
    simp only at this ⊢
    omega
  unfold Frac.pymax pyRound2F
  split_ifs with hle
  · unfold Frac.Le
    norm_num
  · unfold Frac.Le
    simp only at h300 ⊢
    omega

lemma foldl_applyPatch_report (ps : List Patch) (s : AgentState)
    (h : ∀ p ∈ ps, p.audit_report = none ∧ p.final_report = none) :
    (ps.foldl applyPatch s).audit_report = s.audit_report
    ∧ (ps.foldl applyPatch s).final_report = s.final_report := by
  induction ps generalizing s with
  | nil => exact ⟨rfl, rfl⟩
  | cons p ps ih =>
    have hp := h p (by simp)
    have hrest := ih (applyPatch s p) (fun q hq => h q (by simp [hq]))
    have e1 : (applyPatch s p).audit_report = s.audit_report := by
      simp [applyPatch, hp.1]
    have e2 : (applyPatch s p).final_report = s.final_report := by
      simp [applyPatch, hp.2]
    simp only [List.foldl_cons]
    exact ⟨hrest.1.trans e1, hrest.2.trans e2⟩

lemma criterionOpinion_append_eq (j : Judge) (ops : List JudicialOpinion) (c : Criterion)
    (op0 : JudicialOpinion) (hcid : op0.criterion_id = critId c) (hj : op0.judge = j) :
    criterionOpinion j (ops ++ [op0]) c = op0 := by
  simp only [critId] at hcid
  simp only [criterionOpinion, lastOpinionFor]
  rw [List.filter_append]
  have h1 : ([op0].filter (fun op => op.criterion_id == c.id.getD "unknown_criterion")) = [op0] := by
    simp [hcid]
  rw [h1, List.filter_append]
  have h2 : ([op0].filter (fun op => op.judge == j)) = [op0] := by
    simp [hj]
  rw [h2, List.getLast?_concat]
  rfl

lemma criterionOpinion_append_ne (j : Judge) (ops : List JudicialOpinion) (c : Criterion)
    (op0 : JudicialOpinion) (hcid : op0.criterion_id = critId c) (hj : op0.judge ≠ j) :
    criterionOpinion j (ops ++ [op0]) c = criterionOpinion j ops c := by
  simp only [critId] at hcid
  simp only [criterionOpinion, lastOpinionFor]
  rw [List.filter_append]
  have h1 : ([op0].filter (fun op => op.criterion_id == c.id.getD "unknown_criterion")) = [op0] := by
    simp [hcid]
  rw [h1, List.filter_append]
  have h2 : ([op0].filter (fun op => op.judge == j)) = [] := by
    simp [hj]
  rw [h2, List.append_nil]

lemma criterionOpinion_of_no_judge (j : Judge) (ops : List JudicialOpinion) (c : Criterion)
    (h : ∀ op ∈ ops, op.criterion_id = critId c → op.judge ≠ j) :
    criterionOpinion j ops c
      = placeholderOpinion j (critId c) (coerceStatute c.statute) := by
  simp only [criterionOpinion, lastOpinionFor]
  have hnil : ((ops.filter (fun op => op.criterion_id == c.id.getD "unknown_criterion")).filter
      (fun op => op.judge == j)) = [] := by
    rw [List.filter_eq_nil_iff]
    intro a ha
    have hmem := List.mem_filter.mp ha
    have hne := h a hmem.1 (by simpa [critId] using hmem.2)
    simp [hne]
  rw [hnil]
  rfl

/-! ## Claim theorems -/

/-- C4: a criterion triggers the functionality-weight rule exactly when
"orchestration" occurs in its lowercased id or "architecture" in its
lowercased name; a triggering criterion (with no other rule interfering)
gets final score `round((2*TechLead + Prosecutor + Defense)/4)` clamped to
[1,5] and records "functionality_weight"; otherwise the rule leaves the
baseline `round(mean of the three scores)` clamped to [1,5], which is the
final score when no other rule modifies it. -/
theorem functionality_weight_rule (ev : StrDict Evidence)
    (ops : List JudicialOpinion) (c : Criterion) :
    ((synthCriterion ev ops c).breakdown.violated_rules.contains "functionality_weight"
      = funcRuleApplies (critId c) (critName c))
    ∧ (funcRuleApplies (critId c) (critName c) = true →
        (missingOrUnfoundCitations (criterionOpinion .defense ops c) ev).isEmpty = true →
        securityFires ev (criterionOpinion .prosecutor ops c) (critId c) = false →
        (validShared ev (criterionOpinion .prosecutor ops c) (criterionOpinion .defense ops c)
          (criterionOpinion .techLead ops c)).isEmpty = true →
        (synthCriterion ev ops c).breakdown.final_score
          = clampScore ⟨(criterionOpinion .techLead ops c).score * 2
              + (criterionOpinion .prosecutor ops c).score
              + (criterionOpinion .defense ops c).score, 4⟩)
    ∧ (funcRuleApplies (critId c) (critName c) = false →
        scoreAfterFunc (critId c) (critName c) (criterionOpinion .prosecutor ops c).score
          (criterionOpinion .defense ops c).score (criterionOpinion .techLead ops c).score
          = baselineScore (criterionOpinion .prosecutor ops c).score
              (criterionOpinion .defense ops c).score (criterionOpinion .techLead ops c).score)
    ∧ (funcRuleApplies (critId c) (critName c) = false →
        (missingOrUnfoundCitations (criterionOpinion .defense ops c) ev).isEmpty = true →
        securityFires ev (criterionOpinion .prosecutor ops c) (critId c) = false →
        (validShared ev (criterionOpinion .prosecutor ops c) (criterionOpinion .defense ops c)
          (criterionOpinion .techLead ops c)).isEmpty = true →
        (synthCriterion ev ops c).breakdown.final_score
          = baselineScore (criterionOpinion .prosecutor ops c).score
              (criterionOpinion .defense ops c).score (criterionOpinion .techLead ops c).score) := by
  refine ⟨synthCriterion_contains_func ev ops c, ?_, ?_, ?_⟩
  · intro hf hd hs hv
    rw [synthCriterion_final_score]
    simp [finalScore, scoreAfterSecurity, scoreAfterFact, scoreAfterFunc, hf, hd, hs, hv]
  · intro hf
    simp [scoreAfterFunc, hf]
  · intro hf hd hs hv
    rw [synthCriterion_final_score]
    simp [finalScore, scoreAfterSecurity, scoreAfterFact, scoreAfterFunc, hf, hd, hs, hv]

/-- C3: the fact-supremacy rule is recorded exactly when the Defense opinion
cites at least one evidence id that is absent or `found=False`; when it fires
(and no later rule modifies the score) the final score is
`round((Prosecutor + TechLead)/2)` clamped to [1,5]; when every Defense
citation is present with `found=True` (or Defense cites nothing), the rule
leaves the score unchanged. -/
theorem fact_supremacy_rule (ev : StrDict Evidence)
    (ops : List JudicialOpinion) (c : Criterion) :
    ((synthCriterion ev ops c).breakdown.violated_rules.contains "fact_supremacy"
      = !(missingOrUnfoundCitations (criterionOpinion .defense ops c) ev).isEmpty)
    ∧ ((missingOrUnfoundCitations (criterionOpinion .defense ops c) ev).isEmpty = false →
        securityFires ev (criterionOpinion .prosecutor ops c) (critId c) = false →
        (validShared ev (criterionOpinion .prosecutor ops c) (criterionOpinion .defense ops c)
          (criterionOpinion .techLead ops c)).isEmpty = true →
        (synthCriterion ev ops c).breakdown.final_score
          = clampScore ⟨(criterionOpinion .prosecutor ops c).score
              + (criterionOpinion .techLead ops c).score, 2⟩)
    ∧ ((missingOrUnfoundCitations (criterionOpinion .defense ops c) ev).isEmpty = true →
        scoreAfterFact ev (criterionOpinion .defense ops c) (critId c) (critName c)
          (criterionOpinion .prosecutor ops c).score
          (criterionOpinion .defense ops c).score (criterionOpinion .techLead ops c).score
          = scoreAfterFunc (critId c) (critName c) (criterionOpinion .prosecutor ops c).score
              (criterionOpinion .defense ops c).score
              (criterionOpinion .techLead ops c).score) := by
  refine ⟨synthCriterion_contains_fact ev ops c, ?_, ?_⟩
  · intro hd hs hv
    rw [synthCriterion_final_score]
    simp [finalScore, scoreAfterSecurity, scoreAfterFact, hd, hs, hv]
  · intro hd
    simp [scoreAfterFact, hd]

/-- C2: whenever the three judge scores of a criterion have
`max - min > 2`, "variance_re_evaluation" is recorded; if additionally the
three judges share a citation that exists with `found=True`, the final
score is `round((current score + TechLead's raw score)/2)` clamped to
[1,5] (where the current score is the score after the earlier rules),
otherwise the score is left as it was. -/
theorem variance_re_evaluation_rule (ev : StrDict Evidence)
    (ops : List JudicialOpinion) (c : Criterion)
    (hv : critVariance ops c > 2) :
    ((synthCriterion ev ops c).breakdown.violated_rules.contains "variance_re_evaluation" = true)
    ∧ ((validShared ev (criterionOpinion .prosecutor ops c) (criterionOpinion .defense ops c)
          (criterionOpinion .techLead ops c)).isEmpty = false →
        (synthCriterion ev ops c).breakdown.final_score
          = clampScore ⟨scoreAfterSecurity ev (criterionOpinion .prosecutor ops c)
              (criterionOpinion .defense ops c) (critId c) (critName c)
              (criterionOpinion .prosecutor ops c).score
              (criterionOpinion .defense ops c).score
              (criterionOpinion .techLead ops c).score
              + (criterionOpinion .techLead ops c).score, 2⟩)
    ∧ ((validShared ev (criterionOpinion .prosecutor ops c) (criterionOpinion .defense ops c)
          (criterionOpinion .techLead ops c)).isEmpty = true →
        (synthCriterion ev ops c).breakdown.final_score
          = scoreAfterSecurity ev (criterionOpinion .prosecutor ops c)
              (criterionOpinion .defense ops c) (critId c) (critName c)
              (criterionOpinion .prosecutor ops c).score
              (criterionOpinion .defense ops c).score
              (criterionOpinion .techLead ops c).score) := by
  refine ⟨?_, ?_, ?_⟩
  · rw [synthCriterion_contains_variance]
    simp [hv]
  · intro hsh
    rw [synthCriterion_final_score]
    have hv' := hv
    simp only [critVariance] at hv'
    simp [finalScore, hsh, hv']
  · intro hsh
    rw [synthCriterion_final_score]
    have hv' := hv
    simp only [critVariance] at hv'
    have hsh' : validShared ev (criterionOpinion .prosecutor ops c)
        (criterionOpinion .defense ops c) (criterionOpinion .techLead ops c) = [] := by
      simpa [List.isEmpty_iff] using hsh
    simp [finalScore, hsh']

/-- C1 (amended): when the evidence item under id "repo.security_scan" exists
with `found=False` and the criterion is security-claimed (Prosecutor argument
mentions security or vulnerability, Prosecutor cites "repo.security_scan",
or the criterion id is security-tagged), the security-override rule records
"security_override", caps the score at 3 at the point it applies, and caps
the run's aggregate score at 3.0; the criterion's final score is guaranteed
to stay at most 3 only when the subsequent variance re-evaluation does not
modify the score. -/
theorem security_override_amended (now : String) (s : AgentState) (c : Criterion)
    (secEv : Evidence) (hc : c ∈ rubricCriteria s.rubric)
    (h1 : dictGet s.evidences "repo.security_scan" = some secEv)
    (h2 : secEv.found = false)
    (h3 : securityClaimed (criterionOpinion .prosecutor s.opinions c) (critId c) = true) :
    ((synthCriterion s.evidences s.opinions c).breakdown.violated_rules.contains
        "security_override" = true)
    ∧ scoreAfterSecurity s.evidences (criterionOpinion .prosecutor s.opinions c)
        (criterionOpinion .defense s.opinions c) (critId c) (critName c)
        (criterionOpinion .prosecutor s.opinions c).score
        (criterionOpinion .defense s.opinions c).score
        (criterionOpinion .techLead s.opinions c).score ≤ 3
    ∧ ((validShared s.evidences (criterionOpinion .prosecutor s.opinions c)
          (criterionOpinion .defense s.opinions c)
          (criterionOpinion .techLead s.opinions c)).isEmpty = true →
        (synthCriterion s.evidences s.opinions c).breakdown.final_score ≤ 3)
    ∧ (critVariance s.opinions c ≤ 2 →
        (synthCriterion s.evidences s.opinions c).breakdown.final_score ≤ 3)
    ∧ Frac.Le (chiefJusticeReport now s).aggregate_score ⟨3, 1⟩ := by
  have hfires : securityFires s.evidences (criterionOpinion .prosecutor s.opinions c)
      (critId c) = true := by
    simp [securityFires, h1, h2, h3]
  have hcap : scoreAfterSecurity s.evidences (criterionOpinion .prosecutor s.opinions c)
      (criterionOpinion .defense s.opinions c) (critId c) (critName c)
      (criterionOpinion .prosecutor s.opinions c).score
      (criterionOpinion .defense s.opinions c).score
      (criterionOpinion .techLead s.opinions c).score ≤ 3 := by
    simp only [scoreAfterSecurity, hfires, if_true]
    exact min_le_right _ _
  refine ⟨?_, hcap, ?_, ?_, ?_⟩
  · rw [synthCriterion_contains_security]
    exact hfires
  · intro hsh
    rw [synthCriterion_final_score]
    have hsh' : validShared s.evidences (criterionOpinion .prosecutor s.opinions c)
        (criterionOpinion .defense s.opinions c) (criterionOpinion .techLead s.opinions c) = [] := by
      simpa [List.isEmpty_iff] using hsh
    simpa [finalScore, hsh'] using hcap
  · intro hvle
    rw [synthCriterion_final_score]
    have hvle' : ¬ critVariance s.opinions c > 2 := by omega
    simp only [critVariance] at hvle'
    simpa [finalScore, hvle'] using hcap
  · have hTrig : (synthCriterion s.evidences s.opinions c).securityTriggered = true := by
      rw [synthCriterion_securityTriggered]; exact hfires
    have hany : ((rubricCriteria s.rubric).map (synthCriterion s.evidences s.opinions)).any
        (·.securityTriggered) = true := by
      rw [List.any_eq_true]
      exact ⟨synthCriterion s.evidences s.opinions c, List.mem_map_of_mem _ hc, hTrig⟩
    rw [chiefJusticeReport_aggregate]
    simp only [hany, if_true]
    exact aggregate_le_three _

/-- C5: when the opinions for a criterion lack a judge persona, synthesis
uses a deterministic placeholder opinion for that persona with score 1 and
no citations; the criterion's result is exactly what it would be had that
placeholder been supplied explicitly, and the placeholder appears among the
three judge opinions of the breakdown — no failure occurs. -/
theorem missing_persona_placeholder (ev : StrDict Evidence)
    (ops : List JudicialOpinion) (c : Criterion) (j : Judge)
    (h : ∀ op ∈ ops, op.criterion_id = critId c → op.judge ≠ j) :
    criterionOpinion j ops c
      = placeholderOpinion j (critId c) (coerceStatute c.statute)
    ∧ (placeholderOpinion j (critId c) (coerceStatute c.statute)).score = 1
    ∧ (placeholderOpinion j (critId c) (coerceStatute c.statute)).cited_evidence = []
    ∧ synthCriterion ev ops c
        = synthCriterion ev
            (ops ++ [placeholderOpinion j (critId c) (coerceStatute c.statute)]) c
    ∧ placeholderOpinion j (critId c) (coerceStatute c.statute)
        ∈ (synthCriterion ev ops c).breakdown.judge_opinions := by
  have h0 := criterionOpinion_of_no_judge j ops c h
  have heq : criterionOpinion j
      (ops ++ [placeholderOpinion j (critId c) (coerceStatute c.statute)]) c
      = placeholderOpinion j (critId c) (coerceStatute c.statute) :=
    criterionOpinion_append_eq _ _ _ _ rfl rfl
  have hne : ∀ j' : Judge, j ≠ j' → criterionOpinion j'
      (ops ++ [placeholderOpinion j (critId c) (coerceStatute c.statute)]) c
      = criterionOpinion j' ops c := by
    intro j' hj'
    exact criterionOpinion_append_ne _ _ _ _ rfl hj'
  refine ⟨h0, rfl, rfl, ?_, ?_⟩
  · cases j with
    | prosecutor =>
      simp only [synthCriterion]
      rw [heq, hne .defense (by decide), hne .techLead (by decide), h0]
    | defense =>
      simp only [synthCriterion]
      rw [heq, hne .prosecutor (by decide), hne .techLead (by decide), h0]
    | techLead =>
      simp only [synthCriterion]
      rw [heq, hne .prosecutor (by decide), hne .defense (by decide), h0]
  · rw [synthCriterion_judge_opinions, ← h0]
    cases j <;> simp

/-- C1 (counterexample): a concrete run where the security-override rule's
preconditions all hold ("repo.security_scan" exists with `found=False`, the
criterion id is security-tagged, the Prosecutor mentions a vulnerability),
"security_override" is recorded and the aggregate is capped at 3.0, yet the
criterion's final score is 4 > 3: the variance re-evaluation rule, applied
after the cap, raises the score again.  This refutes the claim that the
criterion's final score is capped at 3. -/
theorem security_override_cap_counterexample :
    dictGet cx1Evidences "repo.security_scan" = some cx1SecurityEvidence
    ∧ cx1SecurityEvidence.found = false
    ∧ securityClaimed (criterionOpinion .prosecutor cx1Opinions cx1Criterion)
        (critId cx1Criterion) = true
    ∧ (synthCriterion cx1Evidences cx1Opinions cx1Criterion).breakdown.violated_rules.contains
        "security_override" = true
    ∧ (synthCriterion cx1Evidences cx1Opinions cx1Criterion).breakdown.final_score = 4
    ∧ ((chiefJusticeReport "2026-01-01T00:00:00+00:00" cx1State).criterion_breakdown.map
        (·.final_score)) = [4]
    ∧ (chiefJusticeReport "2026-01-01T00:00:00+00:00" cx1State).aggregate_score
        = ⟨300, 100⟩ := by
  decide

/-- C1 (witness): the amended security-override theorem applied to a concrete
run whose judges share no valid citation: the rule records
"security_override", the criterion's final score stays at most 3, and the
aggregate is at most 3.0. -/
theorem security_override_amended_witness :
    cx1Criterion ∈ rubricCriteria w1State.rubric
    ∧ (synthCriterion w1State.evidences w1State.opinions cx1Criterion).breakdown.violated_rules.contains
        "security_override" = true
    ∧ (synthCriterion w1State.evidences w1State.opinions cx1Criterion).breakdown.final_score ≤ 3
    ∧ Frac.Le (chiefJusticeReport "2026-01-01T00:00:00+00:00" w1State).aggregate_score ⟨3, 1⟩ := by
  have h := security_override_amended "2026-01-01T00:00:00+00:00" w1State cx1Criterion
    cx1SecurityEvidence (by decide) (by decide) (by decide) (by decide)
  exact ⟨by decide, h.1, h.2.2.1 (by decide), h.2.2.2.2⟩

/-- C2 (witness): scores [P=5, D=5, T=1] with a shared `found=True` citation:
variance is 4 > 2, "variance_re_evaluation" is recorded, and the final score
is `round((baseline + TechLead)/2)` = 2, not the raw baseline 4. -/
theorem variance_re_evaluation_rule_witness :
    critVariance w2Opinions w2Criterion > 2
    ∧ (synthCriterion w2Evidences w2Opinions w2Criterion).breakdown.violated_rules.contains
        "variance_re_evaluation" = true
    ∧ baselineScore 5 5 1 = 4
    ∧ (synthCriterion w2Evidences w2Opinions w2Criterion).breakdown.final_score
        = clampScore ⟨baselineScore 5 5 1 + 1, 2⟩
    ∧ (synthCriterion w2Evidences w2Opinions w2Criterion).breakdown.final_score = 2
    ∧ (synthCriterion w2Evidences w2Opinions w2Criterion).breakdown.final_score
        ≠ baselineScore 5 5 1 := by
  have h := variance_re_evaluation_rule w2Evidences w2Opinions w2Criterion (by decide)
  refine ⟨by decide, h.1, by decide, ?_, by decide, by decide⟩
  rw [h.2.1 (by decide)]
  decide

/-- C3 (witness): a Defense opinion citing a nonexistent evidence id triggers
fact supremacy and overrides the score to `round((4+2)/2)` = 3; the same
criterion with every Defense citation `found=True` does not trigger it. -/
theorem fact_supremacy_rule_witness :
    (synthCriterion w3Evidences w3BadOpinions w3Criterion).breakdown.violated_rules.contains
        "fact_supremacy" = true
    ∧ (synthCriterion w3Evidences w3BadOpinions w3Criterion).breakdown.final_score
        = clampScore ⟨4 + 2, 2⟩
    ∧ (synthCriterion w3Evidences w3BadOpinions w3Criterion).breakdown.final_score = 3
    ∧ (synthCriterion w3Evidences w3GoodOpinions w3Criterion).breakdown.violated_rules.contains
        "fact_supremacy" = false := by
  have h := fact_supremacy_rule w3Evidences w3BadOpinions w3Criterion
  have h2 := fact_supremacy_rule w3Evidences w3GoodOpinions w3Criterion
  refine ⟨?_, ?_, by decide, ?_⟩
  · rw [h.1]; decide
  · rw [h.2.1 (by decide) (by decide) (by decide)]; decide
  · rw [h2.1]; decide

/-- C4 (witness): the criterion "C1_Orchestration" with opinions
[P=2, D=4, T=3] triggers the functionality-weight rule and scores
`round((2*3+2+4)/4)` = 3; the criterion "C2_Engineering" with the same score
profile keeps the baseline `round((2+4+3)/3)` = 3. -/
theorem functionality_weight_rule_witness :
    funcRuleApplies (critId w4OrchCriterion) (critName w4OrchCriterion) = true
    ∧ (synthCriterion [] w4OrchOpinions w4OrchCriterion).breakdown.violated_rules.contains
        "functionality_weight" = true
    ∧ (synthCriterion [] w4OrchOpinions w4OrchCriterion).breakdown.final_score
        = clampScore ⟨3 * 2 + 2 + 4, 4⟩
    ∧ (synthCriterion [] w4OrchOpinions w4OrchCriterion).breakdown.final_score = 3
    ∧ funcRuleApplies (critId w2Criterion) (critName w2Criterion) = false
    ∧ (synthCriterion [] w4EngOpinions w2Criterion).breakdown.final_score
        = baselineScore 2 4 3
    ∧ (synthCriterion [] w4EngOpinions w2Criterion).breakdown.final_score = 3 := by
  have hOrch := functionality_weight_rule [] w4OrchOpinions w4OrchCriterion
  have hEng := functionality_weight_rule [] w4EngOpinions w2Criterion
  refine ⟨by decide, ?_, ?_, by decide, by decide, ?_, by decide⟩
  · rw [hOrch.1]; decide
  · rw [hOrch.2.1 (by decide) (by decide) (by decide) (by decide)]; decide
  · rw [hEng.2.2.2 (by decide) (by decide) (by decide) (by decide)]; decide

/-- C5 (witness): with only Prosecutor (4) and TechLead (4) opinions, the
Defense opinion used by synthesis is the deterministic placeholder with
score 1, it appears in the breakdown, and the final score 3 reflects it
(`round((4+1+4)/3)` = 3), with no exception possible. -/
theorem missing_persona_placeholder_witness :
    criterionOpinion .defense w5Opinions w5Criterion
      = placeholderOpinion .defense (critId w5Criterion) (coerceStatute w5Criterion.statute)
    ∧ (criterionOpinion .defense w5Opinions w5Criterion).score = 1
    ∧ (synthCriterion [] w5Opinions w5Criterion).breakdown.judge_opinions
        = [criterionOpinion .prosecutor w5Opinions w5Criterion,
           placeholderOpinion .defense (critId w5Criterion) (coerceStatute w5Criterion.statute),
           criterionOpinion .techLead w5Opinions w5Criterion]
    ∧ (synthCriterion [] w5Opinions w5Criterion).breakdown.final_score = 3 := by
  have h := missing_persona_placeholder [] w5Opinions w5Criterion .defense (by decide)
  exact ⟨h.1, by decide, by decide, by decide⟩

/-- C6 (counterexample): `build_graph` never registers the judicial-integrity
check: no node of the compiled graph runs `run_judicial_integrity_check`, no
node named "malformed_outputs_handler" exists, and each judge node's only
successor is "chief_justice" — so synthesis is reached with no integrity
check executing before it on any run. -/
theorem integrity_check_not_wired :
    (graphNodes.map Prod.snd).contains NodeFunc.runJudicialIntegrityCheck = false
    ∧ (graphNodes.map Prod.fst).contains "malformed_outputs_handler" = false
    ∧ successors "prosecutor" = ["chief_justice"]
    ∧ successors "defense" = ["chief_justice"]
    ∧ successors "tech_lead" = ["chief_justice"] := by
  decide

/-- C6 (amended): the repository defines `run_judicial_integrity_check`,
whose routing patch selects the degraded branch "malformed_outputs_handler"
whenever some opinion has an unknown criterion id, some score is outside
[1,5], or fewer than `3 × criterion_count` opinions exist, and selects
"chief_justice" when no reason is flagged — but `build_graph` never
registers this function, so no integrity check runs before synthesis. -/
theorem integrity_check_amended (s : AgentState) :
    ((∃ op ∈ s.opinions, (integrityCriterionIds s.rubric).contains op.criterion_id = false) →
      (runJudicialIntegrityCheck s).routing
        = some [("judicial_branch", "malformed_outputs_handler")])
    ∧ ((∃ op ∈ s.opinions, op.score < 1 ∨ 5 < op.score) →
      (runJudicialIntegrityCheck s).routing
        = some [("judicial_branch", "malformed_outputs_handler")])
    ∧ (integrityCriterionIds s.rubric ≠ [] →
       s.opinions.length < 3 * (integrityCriterionIds s.rubric).length →
      (runJudicialIntegrityCheck s).routing
        = some [("judicial_branch", "malformed_outputs_handler")])
    ∧ (judicialMalformedReasons s.rubric s.opinions = [] →
      (runJudicialIntegrityCheck s).routing = some [("judicial_branch", "chief_justice")])
    ∧ (graphNodes.map Prod.snd).contains NodeFunc.runJudicialIntegrityCheck = false := by
  have hbranch : (judicialMalformedReasons s.rubric s.opinions) ≠ [] →
      (runJudicialIntegrityCheck s).routing
        = some [("judicial_branch", "malformed_outputs_handler")] := by
    intro hne
    have hfalse : (judicialMalformedReasons s.rubric s.opinions).isEmpty = false := by
      cases hh : (judicialMalformedReasons s.rubric s.opinions).isEmpty
      · rfl
      · exact absurd (List.isEmpty_iff.mp hh) hne
    simp [runJudicialIntegrityCheck, hfalse]
  refine ⟨?_, ?_, ?_, ?_, by decide⟩
  · rintro ⟨op, hmem, hco⟩
    refine hbranch (List.ne_nil_of_mem (a := "unknown_criterion_id:" ++ op.criterion_id) ?_)
    unfold judicialMalformedReasons
    refine List.mem_append.mpr (.inl (List.mem_append.mpr (.inr ?_)))
    refine List.mem_flatMap.mpr ⟨op, hmem, ?_⟩
    have hne : ¬((integrityCriterionIds s.rubric).contains op.criterion_id = true) := by
      rw [hco]
      exact Bool.false_ne_true
    refine List.mem_append.mpr (.inl ?_)
    rw [if_neg hne]
    exact List.mem_singleton.mpr rfl
  · rintro ⟨op, hmem, hsc⟩
    refine hbranch (List.ne_nil_of_mem
      (a := "invalid_score:" ++ op.judge.name ++ ":" ++ op.criterion_id
          ++ ":" ++ toString op.score) ?_)
    unfold judicialMalformedReasons
    refine List.mem_append.mpr (.inl (List.mem_append.mpr (.inr ?_)))
    refine List.mem_flatMap.mpr ⟨op, hmem, ?_⟩
    have hscne : ¬ (1 ≤ op.score ∧ op.score ≤ 5) := by omega
    refine List.mem_append.mpr (.inr ?_)
    rw [if_neg hscne]
    exact List.mem_singleton.mpr rfl
  · intro hid hlen
    refine hbranch (List.ne_nil_of_mem
      (a := "incomplete_judicial_output:expected="
          ++ toString ((integrityCriterionIds s.rubric).length * 3)
          ++ ",actual=" ++ toString s.opinions.length) ?_)
    unfold judicialMalformedReasons
    refine List.mem_append.mpr (.inr ?_)
    have hempty : (integrityCriterionIds s.rubric).isEmpty = false := by
      cases hh : (integrityCriterionIds s.rubric).isEmpty
      · rfl
      · exact absurd (List.isEmpty_iff.mp hh) hid
    have hlpos : 0 < (integrityCriterionIds s.rubric).length :=
      List.length_pos.mpr hid
    have hcond : (integrityCriterionIds s.rubric).length * 3 ≠ 0
        ∧ s.opinions.length < (integrityCriterionIds s.rubric).length * 3 := by omega
    simp [hempty, hcond.1, hcond.2]
  · intro hnil
    have : (judicialMalformedReasons s.rubric s.opinions).isEmpty = true :=
      List.isEmpty_iff.mpr hnil
    simp [runJudicialIntegrityCheck, this]

/-- C6 (witness): the amended theorem at concrete states: a stray opinion with
an unknown criterion id routes to "malformed_outputs_handler", while three
well-formed opinions route to "chief_justice". -/
theorem integrity_check_amended_witness :
    (runJudicialIntegrityCheck w6BadState).routing
      = some [("judicial_branch", "malformed_outputs_handler")]
    ∧ (runJudicialIntegrityCheck w6GoodState).routing
      = some [("judicial_branch", "chief_justice")] := by
  have hb := integrity_check_amended w6BadState
  have hg := integrity_check_amended w6GoodState
  exact ⟨hb.1 (by decide), hg.2.2.2.1 (by decide)⟩

/-- C7 (counterexample): `build_graph` never registers the persona-collusion
guard: no node of the compiled graph runs `detect_persona_collusion`, and the
judge fan-out leads through the three judges straight to "chief_justice" —
so no collusion guard executes before synthesis on any run. -/
theorem collusion_guard_not_wired :
    (graphNodes.map Prod.snd).contains NodeFunc.detectPersonaCollusion = false
    ∧ successors "judicial_fanout" = ["prosecutor", "defense", "tech_lead"]
    ∧ (graphNodes.map Prod.fst)
        = ["repo_investigator", "orchestration_precheck", "doc_analyst", "doc_skipped",
           "vision_inspector", "evidence_aggregator", "orchestration_postcheck",
           "judicial_fanout", "missing_artifacts_handler", "prosecutor", "defense",
           "tech_lead", "chief_justice"] := by
  decide

/-- C7 (amended): the repository defines `detect_persona_collusion`, which
caps every opinion's score at 2 whenever the maximum pairwise similarity is
at least 0.9 (so also at exactly 0.9, not only strictly above) and otherwise
returns a patch leaving opinions untouched — but `build_graph` never
registers this function, so the guard executes on no run. -/
theorem collusion_guard_amended (simFn : String → String → Frac) (s : AgentState) :
    (Frac.Le ⟨9, 10⟩ (maxPairSimilarity simFn s) →
      (detectPersonaCollusion simFn s).opinions
        = some (s.opinions.map (fun op => { op with score := min op.score 2 }))
      ∧ ∀ op' ∈ s.opinions.map (fun op => { op with score := min op.score 2 }),
          op'.score ≤ 2)
    ∧ (¬ Frac.Le ⟨9, 10⟩ (maxPairSimilarity simFn s) →
      (detectPersonaCollusion simFn s).opinions = none
      ∧ (detectPersonaCollusion simFn s).routing = none
      ∧ (detectPersonaCollusion simFn s).logs
          = some ["No persona collusion (max_similarity="
              ++ formatQ2 (maxPairSimilarity simFn s) ++ ")"])
    ∧ (graphNodes.map Prod.snd).contains NodeFunc.detectPersonaCollusion = false := by
  refine ⟨?_, ?_, by decide⟩
  · intro hge
    refine ⟨by simp [detectPersonaCollusion, hge], ?_⟩
    intro op' hmem
    obtain ⟨op, _, rfl⟩ := List.mem_map.mp hmem
    exact min_le_right _ _
  · intro hlt
    exact ⟨by simp [detectPersonaCollusion, hlt], by simp [detectPersonaCollusion, hlt],
           by simp [detectPersonaCollusion, hlt]⟩

/-- C7 (witness): the amended theorem at a concrete run: at similarity 0.95
every score is capped to 2; at similarity 0.50 the patch leaves opinions
untouched. -/
theorem collusion_guard_amended_witness :
    Frac.Le ⟨9, 10⟩ (maxPairSimilarity w7SimHigh w7State)
    ∧ (detectPersonaCollusion w7SimHigh w7State).opinions
        = some (w7State.opinions.map (fun op => { op with score := min op.score 2 }))
    ∧ ((detectPersonaCollusion w7SimHigh w7State).opinions.getD []).map (·.score) = [2, 2, 2]
    ∧ (detectPersonaCollusion w7SimLow w7State).opinions = none := by
  have hh := collusion_guard_amended w7SimHigh w7State
  have hl := collusion_guard_amended w7SimLow w7State
  exact ⟨by decide, (hh.1 (by decide)).1, by decide, (hl.2.1 (by decide)).1⟩

/-- C8: `chief_justice_node` is a pure function of the (evidences, opinions,
rubric) triple: two runs at different wall-clock times, over two states that
agree on that triple (but may differ in repo target, report path, routing or
log history), return identical patches — same AuditReport and byte-identical
rendered markdown — because the timestamp and repo target passed to the
pydantic constructor are not `AuditReport` fields and are discarded. -/
theorem synthesis_deterministic (t1 t2 : String) (s1 s2 : AgentState)
    (he : s1.evidences = s2.evidences) (ho : s1.opinions = s2.opinions)
    (hr : s1.rubric = s2.rubric) :
    chiefJusticeNode t1 s1 = chiefJusticeNode t2 s2 := by
  obtain ⟨u1, p1, r1, e1, o1, ro1, l1, a1, f1⟩ := s1
  obtain ⟨u2, p2, r2, e2, o2, ro2, l2, a2, f2⟩ := s2
  simp only at he ho hr
  subst he ho hr
  rfl

/-- C8 (witness): the determinism theorem at two concrete states with the
same (evidences, opinions, rubric) triple but different repo targets, report
paths, routing maps, log histories and run timestamps. -/
theorem synthesis_deterministic_witness :
    chiefJusticeNode "2024-05-01T10:00:00+00:00" w8StateA
      = chiefJusticeNode "2026-10-12T00:00:00+00:00" w8StateB :=
  synthesis_deterministic "2024-05-01T10:00:00+00:00" "2026-10-12T00:00:00+00:00"
    w8StateA w8StateB rfl rfl rfl

/-- C9: the evidence consulted by the security-override rule is stored under
exactly the id "repo.security_scan"; `protocol_security_scan` reports
`found=True` precisely when the scan found zero risky execution patterns
(`os.system`, `subprocess.run(shell=True)`, `eval`, `exec`); and on any state
whose evidence map lacks that key, the rule fires for no criterion and the
aggregate equals the uncapped formula (it is never capped at 3.0 by the
rule). -/
theorem security_scan_designation :
    (∀ (target : String) (resolved : Option (String × List (String × List PyCall)))
        (excMsg : String),
      (protocolSecurityScan target resolved excMsg).id = "repo.security_scan")
    ∧ (∀ (target repoPath : String) (files : List (String × List PyCall)) (excMsg : String),
        ((protocolSecurityScan target (some (repoPath, files)) excMsg).found = true
          ↔ securityRiskyHits files = []))
    ∧ (∀ (now : String) (s : AgentState),
        dictGet s.evidences "repo.security_scan" = none →
        (∀ c ∈ rubricCriteria s.rubric,
          (synthCriterion s.evidences s.opinions c).securityTriggered = false
          ∧ (synthCriterion s.evidences s.opinions c).breakdown.violated_rules.contains
              "security_override" = false)
        ∧ (chiefJusticeReport now s).aggregate_score
            = Frac.pymax ⟨1, 1⟩ (pyRound2F
                ⟨(((rubricCriteria s.rubric).map (synthCriterion s.evidences s.opinions)).map
                    (·.breakdown.final_score)).sum,
                 (max 1 (((rubricCriteria s.rubric).map (synthCriterion s.evidences s.opinions)).map
                    (·.breakdown.final_score)).length : ℤ)⟩)) := by
  refine ⟨?_, ?_, ?_⟩
  · intro target resolved excMsg
    cases resolved with
    | none => rfl
    | some pr =>
      obtain ⟨rp, fs⟩ := pr
      rfl
  · intro target repoPath files excMsg
    simp [protocolSecurityScan, List.isEmpty_iff]
  · intro now s hnone
    have hfires : ∀ pros cid, securityFires s.evidences pros cid = false := by
      intro pros cid
      simp [securityFires, hnone]
    constructor
    · intro c _
      exact ⟨by rw [synthCriterion_securityTriggered]; exact hfires _ _,
             by rw [synthCriterion_contains_security]; exact hfires _ _⟩
    · have hany : ((rubricCriteria s.rubric).map (synthCriterion s.evidences s.opinions)).any
          (·.securityTriggered) = false := by
        rw [List.any_eq_false]
        intro r hr
        obtain ⟨c, _, rfl⟩ := List.mem_map.mp hr
        rw [synthCriterion_securityTriggered]
        simp [hfires]
      rw [chiefJusticeReport_aggregate]
      simp [hany]

/-- C9 (witness): the designation theorem at concrete inputs: a file with an
`os.system` call yields `found=False`, a clean file yields `found=True`, and
a run without the "repo.security_scan" key records no security override and
keeps the uncapped aggregate (3.00 here). -/
theorem security_scan_designation_witness :
    (protocolSecurityScan "https://github.com/example/repo"
        (some ("/tmp/repo", w9RiskyFiles)) "").id = "repo.security_scan"
    ∧ securityRiskyHits w9RiskyFiles = ["app.py:os.system"]
    ∧ (protocolSecurityScan "https://github.com/example/repo"
        (some ("/tmp/repo", w9RiskyFiles)) "").found = false
    ∧ (protocolSecurityScan "https://github.com/example/repo"
        (some ("/tmp/repo", w9CleanFiles)) "").found = true
    ∧ (synthCriterion w9State.evidences w9State.opinions w2Criterion).breakdown.violated_rules.contains
        "security_override" = false
    ∧ (chiefJusticeReport "2026-01-01T00:00:00+00:00" w9State).aggregate_score = ⟨300, 100⟩ := by
  have h := security_scan_designation
  refine ⟨h.1 "https://github.com/example/repo" (some ("/tmp/repo", w9RiskyFiles)) "",
          by decide, by decide, by decide, ?_, by decide⟩
  exact ((h.2.2 "2026-01-01T00:00:00+00:00" w9State (by decide)).1 w2Criterion (by decide)).2

/-- C10: whenever the routing map's "post_branch" is anything but "judicial"
(including "clone_failure" and "missing_evidence"), the post-check router
selects "missing_artifacts_handler"; that handler's patch carries only a
single log line and leaves evidences, opinions, routing, audit_report and
final_report unchanged under the state reducers; the handler's only graph
successor is END; and any run built from evidence-phase patches that never
set audit_report or final_report therefore terminates with
`audit_report = None` and `final_report = None` (the shapes of the concrete
evidence-phase nodes are also recorded). -/
theorem degraded_path_frame (s : AgentState)
    (h : dictGet s.routing "post_branch" ≠ some "judicial") :
    routePostOrchestration s = "missing_artifacts_handler"
    ∧ (runMissingArtifactsHandler s).evidences = none
    ∧ (runMissingArtifactsHandler s).opinions = none
    ∧ (runMissingArtifactsHandler s).routing = none
    ∧ (runMissingArtifactsHandler s).audit_report = none
    ∧ (runMissingArtifactsHandler s).final_report = none
    ∧ (runMissingArtifactsHandler s).logs
        = some ["MissingArtifactsHandler: required detective evidence was incomplete; continuing with partial output for graceful degradation."]
    ∧ (applyPatch s (runMissingArtifactsHandler s)).evidences = s.evidences
    ∧ (applyPatch s (runMissingArtifactsHandler s)).opinions = s.opinions
    ∧ (applyPatch s (runMissingArtifactsHandler s)).routing = s.routing
    ∧ (applyPatch s (runMissingArtifactsHandler s)).audit_report = s.audit_report
    ∧ (applyPatch s (runMissingArtifactsHandler s)).final_report = s.final_report
    ∧ successors "missing_artifacts_handler" = ["__end__"]
    ∧ (∀ (ps : List Patch) (s0 : AgentState),
        (∀ p ∈ ps, p.audit_report = none ∧ p.final_report = none) →
        s0.audit_report = none → s0.final_report = none →
        (applyPatch (ps.foldl applyPatch s0)
            (runMissingArtifactsHandler (ps.foldl applyPatch s0))).audit_report = none
        ∧ (applyPatch (ps.foldl applyPatch s0)
            (runMissingArtifactsHandler (ps.foldl applyPatch s0))).final_report = none)
    ∧ (∀ evs, (runRepoInvestigator evs).audit_report = none
        ∧ (runRepoInvestigator evs).final_report = none)
    ∧ (∀ c1 c2, (runDocAnalyst c1 c2).audit_report = none
        ∧ (runDocAnalyst c1 c2).final_report = none)
    ∧ (∀ st, (runDocSkipped st).audit_report = none
        ∧ (runDocSkipped st).final_report = none)
    ∧ (∀ st, (runEvidenceAggregator st).audit_report = none
        ∧ (runEvidenceAggregator st).final_report = none)
    ∧ (∀ k b l, (orchestrationRoutingPatch k b l).audit_report = none
        ∧ (orchestrationRoutingPatch k b l).final_report = none)
    ∧ (∀ evs, (runVisionInspector evs).audit_report = none
        ∧ (runVisionInspector evs).final_report = none) := by
  have hbeq : (dictGet s.routing "post_branch" == some "judicial") = false := by
    exact beq_eq_false_iff_ne.mpr h
  refine ⟨by simp [routePostOrchestration, hbeq], rfl, rfl, rfl, rfl, rfl, rfl,
    by simp [applyPatch, runMissingArtifactsHandler],
    by simp [applyPatch, runMissingArtifactsHandler],
    by simp [applyPatch, runMissingArtifactsHandler],
    by simp [applyPatch, runMissingArtifactsHandler],
    by simp [applyPatch, runMissingArtifactsHandler],
    by decide, ?_,
    fun _ => ⟨rfl, rfl⟩, fun _ _ => ⟨rfl, rfl⟩, fun _ => ⟨rfl, rfl⟩,
    fun _ => ⟨rfl, rfl⟩, fun _ _ _ => ⟨rfl, rfl⟩, fun _ => ⟨rfl, rfl⟩⟩
  intro ps s0 hps ha hf
  have hfold := foldl_applyPatch_report ps s0 hps
  constructor
  · simp [applyPatch, runMissingArtifactsHandler, hfold.1, ha]
  · simp [applyPatch, runMissingArtifactsHandler, hfold.2, hf]

/-- C10 (witness): the frame theorem at a concrete degraded state whose
post-check chose "clone_failure": the router selects the handler and the
merged result still has no audit report, no final report and unchanged
evidence. -/
theorem degraded_path_frame_witness :
    routePostOrchestration w10State = "missing_artifacts_handler"
    ∧ (applyPatch w10State (runMissingArtifactsHandler w10State)).audit_report = none
    ∧ (applyPatch w10State (runMissingArtifactsHandler w10State)).final_report = none
    ∧ (applyPatch w10State (runMissingArtifactsHandler w10State)).evidences
        = w10State.evidences := by
  obtain ⟨h1, _, _, _, _, _, _, h8, _, _, h11, h12, _⟩ :=
    degraded_path_frame w10State (by decide)
  exact ⟨h1, h11.trans rfl, h12.trans rfl, h8⟩

end GovSwarm
